import Mathlib

/-!
Verification development for the urbix-api parcel-intelligence core.

Shallow embedding conventions:
* Python strings are embedded as `List Char` (`Str`); `s in t` is list
  containment of a contiguous run (`<:+:`), `.lower()` is `List.map
  Char.toLower`, `.strip()` drops whitespace at both ends.
* Python floats are embedded as exact rationals (`ℚ`); `math.sqrt` forces
  the derived envelope quantities into `ℝ`.  `int(x)` on a non-negative
  float is `Int.floor`; the general truncation-toward-zero is `pyTrunc`.
* `None` / missing dict keys are `Option`; Python truthiness of a number
  is `≠ 0`, of a string `≠ []`, of a container `≠ empty`.
* `async` fan-out is embedded by passing every provider response
  explicitly; an HTTP/transport/parse failure is the `error` case of
  `Except`.
-/

namespace Urbix

/-- Python strings, embedded as explicit character lists so that every
string operation the source performs is a structural computation. -/
abbrev Str := List Char

/-- Inject a Lean string literal into the embedding. -/
def str (s : String) : Str := s.data

/-- Python `s.lower()`. -/
def pyLower (s : Str) : Str := s.map Char.toLower

/-- Python `s.strip()`: drop whitespace from both ends. -/
def pyStrip (s : Str) : Str :=
  ((s.dropWhile Char.isWhitespace).reverse.dropWhile Char.isWhitespace).reverse

/-- Python truthiness of a string. -/
def pyTruthy (s : Str) : Bool := s ≠ []

/-- Python `int(x)` truncation toward zero on an exact rational. -/
def pyTrunc (q : ℚ) : ℤ := if 0 ≤ q then ⌊q⌋ else -⌊-q⌋

/-- Decimal digit string folded back to a natural number
(`int("".join(filter(str.isdigit, s)))` applied to an all-digit string). -/
def digitsToNat (s : Str) : ℕ := s.foldl (fun n c => 10 * n + (c.toNat - 48)) 0

/-- Python `int(s)` for an optionally signed decimal literal; anything
else fails (raises `ValueError` in the source, caught by its caller). -/
def pyParseInt (s : Str) : Option ℤ :=
  match s with
  | [] => none
  | c :: rest =>
    if c = '-' then
      if rest ≠ [] ∧ rest.all Char.isDigit then some (-(digitsToNat rest : ℤ)) else none
    else if c = '+' then
      if rest ≠ [] ∧ rest.all Char.isDigit then some ((digitsToNat rest : ℤ)) else none
    else if (c :: rest).all Char.isDigit then some ((digitsToNat (c :: rest) : ℤ)) else none

/-- Extend the first part of a split with one leading character. -/
def consHead (c : Char) : List Str → List Str
  | [] => [[c]]
  | p :: ps => (c :: p) :: ps

/-- Python `s.split("per")`: the source only ever splits on the literal
`"per"`, so the separator is specialised to keep the recursion
structural.  Scans left to right, splitting at each non-overlapping
occurrence, exactly like `str.split`. -/
def splitPer : Str → List Str
  | [] => [[]]
  | 'p' :: 'e' :: 'r' :: rest => [] :: splitPer rest
  | c :: cs => consHead c (splitPer cs)

-- ───────────────────────── ai_summary.py : constraint scorer ─────────────────

/-- One layer entry of a grouped overlay (output shape of
`scc_planning.get_overlays_grouped`).  `heightM`/`attributes` are absent
when the optional keys are absent. -/
structure OverlayLayer where
  layerId : ℤ
  name : Str
  label : Str
  heightM : Option ℚ
  attributes : List (Str × Str)
deriving DecidableEq

/-- One grouped overlay category (`{category, layers}`). -/
structure OverlayGroup where
  category : Str
  layers : List OverlayLayer
deriving DecidableEq

/-- `flood_info` as read by the scorer: only `has_flood_data` is used.
An absent/empty dict embeds as `none`. -/
structure FloodInfo where
  hasFloodData : Bool
deriving DecidableEq

/-- `constraints` dict as read by the scorer.  `koalaStatus`/`esaStatus`
are the `.get("status")` strings (empty = falsy/absent). -/
structure ConstraintsInfo where
  easementsCount : ℕ
  covenantsCount : ℕ
  koalaStatus : Str
  esaStatus : Str
deriving DecidableEq

/-- `infrastructure` dict as read by the scorer: the two availability
flags (a missing key reads as unavailable). -/
structure Infrastructure where
  waterAvailable : Bool
  sewerAvailable : Bool
deriving DecidableEq

/-- `buildability` dict as read by the scorer: only
`lot_compliance.compliant` is used (missing key defaults to `True`). -/
structure BuildabilityFlag where
  lotCompliant : Bool
deriving DecidableEq

/-- Itemised deduction entries, in the order the source appends them
(the formatted message strings are presentation and carry the same
data). -/
inductive Deduction
  | bushfire (count : ℕ)
  | floodOverlay (count : ℕ)
  | heritage (count : ℕ)
  | landslide
  | steepLand
  | biodiversity (count : ℕ)
  | coastal (count : ℕ)
  | acidSulfate
  | scenic
  | directFlood
  | easements (count : ℕ)
  | covenants (count : ℕ)
  | koala
  | esa
  | noWater
  | noSewer
  | lotNonCompliant
deriving DecidableEq

/-- The full argument tuple of `_calculate_constraints_score`. -/
structure ScoreInput where
  overlays : List OverlayGroup
  floodInfo : Option FloodInfo
  constraints : Option ConstraintsInfo
  infrastructure : Option Infrastructure
  buildability : Option BuildabilityFlag
deriving DecidableEq

/-- One iteration of the scorer's overlay loop: subtract the category's
deduction and record it.  Categories matching no branch change
nothing. -/
def overlayStep (acc : ℤ × List Deduction) (g : OverlayGroup) : ℤ × List Deduction :=
  let cat := pyLower g.category
  let count := g.layers.length
  if str "bushfire" <:+: cat then (acc.1 - 12 * count, acc.2 ++ [Deduction.bushfire count])
  else if str "flood" <:+: cat then (acc.1 - 15 * count, acc.2 ++ [Deduction.floodOverlay count])
  else if str "heritage" <:+: cat ∨ str "character" <:+: cat then
    (acc.1 - 8 * count, acc.2 ++ [Deduction.heritage count])
  else if str "landslide" <:+: cat then (acc.1 - 15, acc.2 ++ [Deduction.landslide])
  else if str "steep" <:+: cat ∨ str "slope" <:+: cat then (acc.1 - 10, acc.2 ++ [Deduction.steepLand])
  else if str "biodiversity" <:+: cat ∨ str "waterway" <:+: cat ∨ str "wetland" <:+: cat then
    (acc.1 - 10 * count, acc.2 ++ [Deduction.biodiversity count])
  else if str "coastal" <:+: cat then (acc.1 - 10 * count, acc.2 ++ [Deduction.coastal count])
  else if str "acid" <:+: cat then (acc.1 - 5, acc.2 ++ [Deduction.acidSulfate])
  else if str "scenic" <:+: cat then (acc.1 - 5, acc.2 ++ [Deduction.scenic])
  else acc

/-- The scorer's flood stage (`if flood_info and flood_info.get("has_flood_data")`). -/
def floodStep (acc : ℤ × List Deduction) : Option FloodInfo → ℤ × List Deduction
  | none => acc
  | some f => if f.hasFloodData then (acc.1 - 15, acc.2 ++ [Deduction.directFlood]) else acc

/-- The scorer's constraints stage: easements, covenants, koala, ESA, in
that order. -/
def consStep (acc : ℤ × List Deduction) : Option ConstraintsInfo → ℤ × List Deduction
  | none => acc
  | some c =>
    let a := if c.easementsCount > 0 then
      (acc.1 - 5 * c.easementsCount, acc.2 ++ [Deduction.easements c.easementsCount]) else acc
    let b := if c.covenantsCount > 0 then
      (a.1 - 5 * c.covenantsCount, a.2 ++ [Deduction.covenants c.covenantsCount]) else a
    let k := if pyTruthy c.koalaStatus then (b.1 - 10, b.2 ++ [Deduction.koala]) else b
    if pyTruthy c.esaStatus then (k.1 - 10, k.2 ++ [Deduction.esa]) else k

/-- The scorer's infrastructure stage: water then sewer availability. -/
def infraStep (acc : ℤ × List Deduction) : Option Infrastructure → ℤ × List Deduction
  | none => acc
  | some i =>
    let w := if ¬ i.waterAvailable then (acc.1 - 8, acc.2 ++ [Deduction.noWater]) else acc
    if ¬ i.sewerAvailable then (w.1 - 8, w.2 ++ [Deduction.noSewer]) else w

/-- The scorer's lot-compliance stage. -/
def lotStep (acc : ℤ × List Deduction) : Option BuildabilityFlag → ℤ × List Deduction
  | none => acc
  | some b => if ¬ b.lotCompliant then (acc.1 - 5, acc.2 ++ [Deduction.lotNonCompliant]) else acc

/-- `_calculate_constraints_score`: starts at 100, applies the fixed
deduction table stage by stage in the source's evaluation order, clamps
the final score to `[1, 100]`, and returns the score together with the
ordered deduction list. -/
def calculateConstraintsScore (inp : ScoreInput) : ℤ × List Deduction :=
  let s1 := inp.overlays.foldl overlayStep (100, [])
  let s5 := lotStep (infraStep (consStep (floodStep s1 inp.floodInfo) inp.constraints)
    inp.infrastructure) inp.buildability
  (max 1 (min 100 s5.1), s5.2)

/-- The score component alone. -/
def constraintsScore (inp : ScoreInput) : ℤ := (calculateConstraintsScore inp).1

-- ─────────────────────── ai_summary.py : precedent analyzer ──────────────────

/-- One development-application record, as produced by
`da_history._process_da_features` and consumed by
`_analyze_da_precedent` (`decision = None` embeds as `[]`; the two date
fields hold the raw timestamp behind the formatted date string, `none`
when absent). -/
structure DARecord where
  ramId : Option Str
  description : Str
  category : Str
  decision : Str
  progress : Str
  assessmentLevel : Str
  dateReceived : Option ℤ
  dateDecided : Option ℤ
  landParcelRelationship : Str
deriving DecidableEq

/-- Per-record decision classification tallies. -/
structure DACounts where
  approved : ℕ
  refused : ℕ
  lapsed : ℕ
  inProgress : ℕ
deriving DecidableEq

/-- The classification loop of `_analyze_da_precedent`. -/
def daStep (acc : DACounts) (da : DARecord) : DACounts :=
  let decision := pyLower da.decision
  if pyTruthy decision ∧ str "approved" <:+: decision then
    { acc with approved := acc.approved + 1 }
  else if pyTruthy decision ∧ str "refused" <:+: decision then
    { acc with refused := acc.refused + 1 }
  else if pyTruthy decision ∧ str "lapsed" <:+: decision then
    { acc with lapsed := acc.lapsed + 1 }
  else
    { acc with inProgress := acc.inProgress + 1 }

/-- Result record of `_analyze_da_precedent` (the per-category top-5
tally is presentation and not modelled). -/
structure PrecedentAnalysis where
  approvedCount : ℕ
  refusedCount : ℕ
  inProgressCount : ℕ
  lapsedCount : ℕ
  totalCount : ℕ
  onParcelCount : ℕ
  nearbyCount : ℕ
  assessment : Str
  outlook : Str
deriving DecidableEq

def noPrecedentMsg : Str := str "No precedent data available in area"
def strongApprovalMsg : Str :=
  str "Strong approval trend — all applications in the area have been approved"
def positiveTrendMsg : Str := str "Positive approval trend — majority of applications approved"
def challengingMsg : Str := str "Challenging area — more refusals than approvals"
def mixedMsg : Str := str "Mixed results — assess carefully against planning scheme"

/-- `_analyze_da_precedent`: classify every on-parcel and nearby record,
then derive assessment and outlook by the source's priority chain. -/
def analyzeDaPrecedent (onParcel nearby : List DARecord) : PrecedentAnalysis :=
  let counts := (onParcel ++ nearby).foldl daStep ⟨0, 0, 0, 0⟩
  let total := counts.approved + counts.refused + counts.lapsed + counts.inProgress
  let am :=
    if total = 0 then (noPrecedentMsg, str "neutral")
    else if counts.refused = 0 ∧ counts.approved > 0 then (strongApprovalMsg, str "positive")
    else if counts.approved > counts.refused * 2 then (positiveTrendMsg, str "positive")
    else if counts.refused > counts.approved then (challengingMsg, str "negative")
    else (mixedMsg, str "neutral")
  { approvedCount := counts.approved
    refusedCount := counts.refused
    inProgressCount := counts.inProgress
    lapsedCount := counts.lapsed
    totalCount := total
    onParcelCount := onParcel.length
    nearbyCount := nearby.length
    assessment := am.1
    outlook := am.2 }

end Urbix

namespace Urbix

-- ───────────────────────── scorer: derived quantities ────────────────────────

/-- Amount the overlay loop deducts for one group (the score component of
`overlayStep`). -/
def overlayDed (g : OverlayGroup) : ℤ :=
  let cat := pyLower g.category
  let count := g.layers.length
  if str "bushfire" <:+: cat then 12 * count
  else if str "flood" <:+: cat then 15 * count
  else if str "heritage" <:+: cat ∨ str "character" <:+: cat then 8 * count
  else if str "landslide" <:+: cat then 15
  else if str "steep" <:+: cat ∨ str "slope" <:+: cat then 10
  else if str "biodiversity" <:+: cat ∨ str "waterway" <:+: cat ∨ str "wetland" <:+: cat then
    10 * count
  else if str "coastal" <:+: cat then 10 * count
  else if str "acid" <:+: cat then 5
  else if str "scenic" <:+: cat then 5
  else 0

def overlaysDed (gs : List OverlayGroup) : ℤ := (gs.map overlayDed).sum

def floodDed : Option FloodInfo → ℤ
  | none => 0
  | some f => if f.hasFloodData then 15 else 0

def consDed : Option ConstraintsInfo → ℤ
  | none => 0
  | some c =>
    (if c.easementsCount > 0 then 5 * (c.easementsCount : ℤ) else 0) +
    (if c.covenantsCount > 0 then 5 * (c.covenantsCount : ℤ) else 0) +
    (if pyTruthy c.koalaStatus then 10 else 0) +
    (if pyTruthy c.esaStatus then 10 else 0)

def infraDed : Option Infrastructure → ℤ
  | none => 0
  | some i => (if ¬ i.waterAvailable then 8 else 0) + (if ¬ i.sewerAvailable then 8 else 0)

def lotDed : Option BuildabilityFlag → ℤ
  | none => 0
  | some b => if ¬ b.lotCompliant then 5 else 0

def totalDed (inp : ScoreInput) : ℤ :=
  overlaysDed inp.overlays + floodDed inp.floodInfo + consDed inp.constraints +
    infraDed inp.infrastructure + lotDed inp.buildability

set_option maxHeartbeats 1600000 in
theorem overlayStep_fst (acc : ℤ × List Deduction) (g : OverlayGroup) :
    (overlayStep acc g).1 = acc.1 - overlayDed g := by
  unfold overlayStep overlayDed
  try dsimp only
  split_ifs <;> omega

theorem foldl_overlayStep_fst (gs : List OverlayGroup) (acc : ℤ × List Deduction) :
    (gs.foldl overlayStep acc).1 = acc.1 - overlaysDed gs := by
  induction gs generalizing acc with
  | nil => simp [overlaysDed]
  | cons g gs ih =>
    rw [List.foldl_cons, ih, overlayStep_fst]
    simp [overlaysDed]
    ring

theorem floodStep_fst (acc : ℤ × List Deduction) (fl : Option FloodInfo) :
    (floodStep acc fl).1 = acc.1 - floodDed fl := by
  cases fl with
  | none => simp [floodStep, floodDed]
  | some f => simp only [floodStep, floodDed]; split_ifs <;> omega

theorem consStep_fst (acc : ℤ × List Deduction) (co : Option ConstraintsInfo) :
    (consStep acc co).1 = acc.1 - consDed co := by
  cases co with
  | none => simp [consStep, consDed]
  | some c =>
    simp only [consStep, consDed]
    split_ifs <;> (try dsimp only) <;> omega

theorem infraStep_fst (acc : ℤ × List Deduction) (infra : Option Infrastructure) :
    (infraStep acc infra).1 = acc.1 - infraDed infra := by
  cases infra with
  | none => simp [infraStep, infraDed]
  | some i =>
    simp only [infraStep, infraDed]
    split_ifs <;> (try dsimp only) <;> omega

theorem lotStep_fst (acc : ℤ × List Deduction) (bu : Option BuildabilityFlag) :
    (lotStep acc bu).1 = acc.1 - lotDed bu := by
  cases bu with
  | none => simp [lotStep, lotDed]
  | some b => simp only [lotStep, lotDed]; split_ifs <;> omega

theorem constraintsScore_eq (inp : ScoreInput) :
    constraintsScore inp = max 1 (min 100 (100 - totalDed inp)) := by
  unfold constraintsScore calculateConstraintsScore totalDed
  try dsimp only
  rw [lotStep_fst, infraStep_fst, consStep_fst, floodStep_fst, foldl_overlayStep_fst]
  try dsimp only
  omega

set_option maxHeartbeats 1600000 in
theorem overlayDed_nonneg (g : OverlayGroup) : 0 ≤ overlayDed g := by
  unfold overlayDed
  try dsimp only
  split_ifs <;> omega

theorem overlaysDed_nonneg (gs : List OverlayGroup) : 0 ≤ overlaysDed gs := by
  unfold overlaysDed
  induction gs with
  | nil => simp
  | cons g gs ih =>
    simp only [List.map_cons, List.sum_cons]
    have := overlayDed_nonneg g
    omega

-- ─────────────────────────── scorer: extension relation ──────────────────────

/-- Insert one extra layer into the `i`-th overlay group. -/
def addLayerTo : List OverlayGroup → ℕ → OverlayLayer → List OverlayGroup
  | [], _, _ => []
  | g :: gs, 0, l => { g with layers := l :: g.layers } :: gs
  | g :: gs, Nat.succ n, l => g :: addLayerTo gs n l

/-- One more easement on the constraints record (creating the record if
absent). -/
def bumpEasement : Option ConstraintsInfo → ConstraintsInfo
  | none => ⟨1, 0, [], []⟩
  | some c => { c with easementsCount := c.easementsCount + 1 }

/-- One more covenant on the constraints record (creating the record if
absent). -/
def bumpCovenant : Option ConstraintsInfo → ConstraintsInfo
  | none => ⟨0, 1, [], []⟩
  | some c => { c with covenantsCount := c.covenantsCount + 1 }

/-- `ExtendsOne a b` holds when `b` is `a` extended by exactly one more
deduction-triggering element: one more overlay layer, one more easement
or covenant, flood mapping becoming present, a water or sewer service
becoming (or arriving) unavailable, or the lot becoming
non-compliant. -/
inductive ExtendsOne : ScoreInput → ScoreInput → Prop
  | addLayer (inp : ScoreInput) (i : ℕ) (l : OverlayLayer) :
      ExtendsOne inp { inp with overlays := addLayerTo inp.overlays i l }
  | addEasement (inp : ScoreInput) :
      ExtendsOne inp { inp with constraints := some (bumpEasement inp.constraints) }
  | addCovenant (inp : ScoreInput) :
      ExtendsOne inp { inp with constraints := some (bumpCovenant inp.constraints) }
  | floodPresent (inp : ScoreInput) :
      ExtendsOne inp { inp with floodInfo := some ⟨true⟩ }
  | missingWater (inp : ScoreInput) (i : Infrastructure)
      (h : inp.infrastructure = some i) :
      ExtendsOne inp { inp with infrastructure := some ⟨false, i.sewerAvailable⟩ }
  | missingWaterNew (inp : ScoreInput) (h : inp.infrastructure = none) :
      ExtendsOne inp { inp with infrastructure := some ⟨false, true⟩ }
  | missingSewer (inp : ScoreInput) (i : Infrastructure)
      (h : inp.infrastructure = some i) :
      ExtendsOne inp { inp with infrastructure := some ⟨i.waterAvailable, false⟩ }
  | missingSewerNew (inp : ScoreInput) (h : inp.infrastructure = none) :
      ExtendsOne inp { inp with infrastructure := some ⟨true, false⟩ }
  | nonCompliantLot (inp : ScoreInput) :
      ExtendsOne inp { inp with buildability := some ⟨false⟩ }

set_option maxHeartbeats 1600000 in
theorem overlayDed_addLayer (g : OverlayGroup) (l : OverlayLayer) :
    overlayDed g ≤ overlayDed { g with layers := l :: g.layers } := by
  unfold overlayDed
  try dsimp only
  simp only [List.length_cons]
  split_ifs <;> omega

theorem overlaysDed_addLayerTo (gs : List OverlayGroup) (i : ℕ) (l : OverlayLayer) :
    overlaysDed gs ≤ overlaysDed (addLayerTo gs i l) := by
  induction gs generalizing i with
  | nil => simp [addLayerTo]
  | cons g gs ih =>
    cases i with
    | zero =>
      simp only [addLayerTo, overlaysDed, List.map_cons, List.sum_cons]
      have := overlayDed_addLayer g l
      have h2 : ((gs.map overlayDed).sum : ℤ) ≤ (gs.map overlayDed).sum := le_refl _
      omega
    | succ n =>
      simp only [addLayerTo, overlaysDed, List.map_cons, List.sum_cons]
      have := ih n
      simp only [overlaysDed] at this
      omega

end Urbix

namespace Urbix

theorem consDed_bumpEasement (o : Option ConstraintsInfo) :
    consDed o ≤ consDed (some (bumpEasement o)) := by
  cases o with
  | none => decide
  | some c =>
    simp only [bumpEasement, consDed]
    try dsimp only
    split_ifs <;> omega

theorem consDed_bumpCovenant (o : Option ConstraintsInfo) :
    consDed o ≤ consDed (some (bumpCovenant o)) := by
  cases o with
  | none => decide
  | some c =>
    simp only [bumpCovenant, consDed]
    try dsimp only
    split_ifs <;> omega

theorem floodDed_le (fl : Option FloodInfo) : floodDed fl ≤ 15 := by
  cases fl with
  | none => decide
  | some f => simp only [floodDed]; split_ifs <;> omega

theorem infraDed_le (infra : Option Infrastructure) : infraDed infra ≤ 16 := by
  cases infra with
  | none => decide
  | some i => simp only [infraDed]; split_ifs <;> omega

theorem infraDed_water (i : Infrastructure) :
    infraDed (some i) ≤ infraDed (some ⟨false, i.sewerAvailable⟩) := by
  simp only [infraDed]
  try dsimp only
  split_ifs <;> first | omega | exact False.elim (by assumption)

theorem infraDed_sewer (i : Infrastructure) :
    infraDed (some i) ≤ infraDed (some ⟨i.waterAvailable, false⟩) := by
  simp only [infraDed]
  try dsimp only
  split_ifs <;> first | omega | exact False.elim (by assumption)

theorem lotDed_le (bu : Option BuildabilityFlag) : lotDed bu ≤ 5 := by
  cases bu with
  | none => decide
  | some b => simp only [lotDed]; split_ifs <;> omega

/-- **C1.** For every combination of overlays, flood info, constraints,
infrastructure, and buildability inputs, `_calculate_constraints_score`
returns an integer score in `[1, 100]`; when every input is empty (no
overlay groups, no flood data, no easements/covenants/koala/ESA, water
and sewer both available or infrastructure absent, lot compliant) the
score is exactly 100. -/
theorem c1_constraints_score_range_and_empty :
    (∀ inp : ScoreInput, 1 ≤ constraintsScore inp ∧ constraintsScore inp ≤ 100) ∧
    (∀ inp : ScoreInput, inp.overlays = [] → inp.floodInfo = none → inp.constraints = none →
      (inp.infrastructure = none ∨ inp.infrastructure = some ⟨true, true⟩) →
      (inp.buildability = none ∨ inp.buildability = some ⟨true⟩) →
      constraintsScore inp = 100) := by
  constructor
  · intro inp
    rw [constraintsScore_eq]
    omega
  · rintro ⟨ov, fl, co, infra, bu⟩ hov hfl hco hinfra hbu
    dsimp only at hov hfl hco hinfra hbu
    subst hov; subst hfl; subst hco
    rw [constraintsScore_eq]
    have hover : overlaysDed [] = 0 := by decide
    rcases hinfra with h | h <;> rcases hbu with h2 | h2 <;> subst h <;> subst h2 <;>
      simp only [totalDed, hover, floodDed, consDed, infraDed, lotDed] <;> decide

/-- Witness for C1 at the all-empty input. -/
theorem c1_witness :
    1 ≤ constraintsScore ⟨[], none, none, none, none⟩ ∧
    constraintsScore ⟨[], none, none, none, none⟩ = 100 :=
  ⟨(c1_constraints_score_range_and_empty.1 ⟨[], none, none, none, none⟩).1,
    c1_constraints_score_range_and_empty.2 ⟨[], none, none, none, none⟩ rfl rfl rfl
      (Or.inl rfl) (Or.inl rfl)⟩

/-- **C6.** The constraint score is monotonically non-increasing under
adding one deduction-triggering input: one more overlay layer, one more
easement or covenant, flood data becoming present, a missing water or
sewer service, or a non-compliant lot. -/
theorem c6_constraints_score_monotone (a b : ScoreInput) (h : ExtendsOne a b) :
    constraintsScore b ≤ constraintsScore a := by
  rw [constraintsScore_eq, constraintsScore_eq]
  have hmono : totalDed a ≤ totalDed b := by
    cases h with
    | addLayer i l =>
      have := overlaysDed_addLayerTo a.overlays i l
      simp only [totalDed]
      try dsimp only
      omega
    | addEasement =>
      have := consDed_bumpEasement a.constraints
      simp only [totalDed]
      try dsimp only
      omega
    | addCovenant =>
      have := consDed_bumpCovenant a.constraints
      simp only [totalDed]
      try dsimp only
      omega
    | floodPresent =>
      have h1 := floodDed_le a.floodInfo
      have h2 : floodDed (some ⟨true⟩) = 15 := by decide
      simp only [totalDed]
      try dsimp only
      rw [h2]
      omega
    | missingWater i hi =>
      have := infraDed_water i
      simp only [totalDed]
      try dsimp only
      rw [hi]
      omega
    | missingWaterNew hi =>
      have h2 : infraDed (some ⟨false, true⟩) = 8 := by decide
      have h3 : infraDed (none : Option Infrastructure) = 0 := by decide
      simp only [totalDed]
      try dsimp only
      rw [hi, h2, h3]
      omega
    | missingSewer i hi =>
      have := infraDed_sewer i
      simp only [totalDed]
      try dsimp only
      rw [hi]
      omega
    | missingSewerNew hi =>
      have h2 : infraDed (some ⟨true, false⟩) = 8 := by decide
      have h3 : infraDed (none : Option Infrastructure) = 0 := by decide
      simp only [totalDed]
      try dsimp only
      rw [hi, h2, h3]
      omega
    | nonCompliantLot =>
      have h1 := lotDed_le a.buildability
      have h2 : lotDed (some ⟨false⟩) = 5 := by decide
      simp only [totalDed]
      try dsimp only
      rw [h2]
      omega
  omega

/-- Witness for C6: flood data becoming present on the empty snapshot. -/
theorem c6_witness :
    constraintsScore ⟨[], some ⟨true⟩, none, none, none⟩ ≤
      constraintsScore ⟨[], none, none, none, none⟩ :=
  c6_constraints_score_monotone _ _ (ExtendsOne.floodPresent ⟨[], none, none, none, none⟩)

end Urbix

namespace Urbix

/-- **C7.** The precedent analyzer classifies the outlook in priority
order: no applications at all yields the no-precedent baseline with zero
counts; else positive if refusals = 0 and approvals > 0; else positive
if approvals > 2 × refusals; else negative if refusals > approvals; else
neutral.  (The latter three conditions already force a non-empty input,
so they are stated unconditionally.) -/
theorem c7_precedent_outlook (onp nb : List DARecord) :
    (onp = [] ∧ nb = [] →
      (analyzeDaPrecedent onp nb).outlook = str "neutral" ∧
      (analyzeDaPrecedent onp nb).assessment = noPrecedentMsg ∧
      (analyzeDaPrecedent onp nb).approvedCount = 0 ∧
      (analyzeDaPrecedent onp nb).refusedCount = 0 ∧
      (analyzeDaPrecedent onp nb).lapsedCount = 0 ∧
      (analyzeDaPrecedent onp nb).inProgressCount = 0 ∧
      (analyzeDaPrecedent onp nb).totalCount = 0) ∧
    ((analyzeDaPrecedent onp nb).refusedCount = 0 ∧
        0 < (analyzeDaPrecedent onp nb).approvedCount →
      (analyzeDaPrecedent onp nb).outlook = str "positive") ∧
    ((analyzeDaPrecedent onp nb).refusedCount * 2 < (analyzeDaPrecedent onp nb).approvedCount →
      (analyzeDaPrecedent onp nb).outlook = str "positive") ∧
    ((analyzeDaPrecedent onp nb).approvedCount < (analyzeDaPrecedent onp nb).refusedCount →
      (analyzeDaPrecedent onp nb).outlook = str "negative") ∧
    ((analyzeDaPrecedent onp nb).totalCount ≠ 0 →
      ¬((analyzeDaPrecedent onp nb).refusedCount = 0 ∧
        0 < (analyzeDaPrecedent onp nb).approvedCount) →
      ¬((analyzeDaPrecedent onp nb).refusedCount * 2 <
        (analyzeDaPrecedent onp nb).approvedCount) →
      ¬((analyzeDaPrecedent onp nb).approvedCount < (analyzeDaPrecedent onp nb).refusedCount) →
      (analyzeDaPrecedent onp nb).outlook = str "neutral" ∧
      (analyzeDaPrecedent onp nb).assessment = mixedMsg) := by
  refine ⟨?_, ?_⟩
  · rintro ⟨h1, h2⟩
    subst h1; subst h2
    decide
  unfold analyzeDaPrecedent
  try dsimp only
  generalize (onp ++ nb).foldl daStep ⟨0, 0, 0, 0⟩ = C
  obtain ⟨ca, cr, cl, ci⟩ := C
  try dsimp only
  refine ⟨?_, ?_, ?_, ?_⟩
  · rintro ⟨h1, h2⟩
    split_ifs <;> try dsimp only
    all_goals first | rfl | omega
  · intro h1
    split_ifs <;> try dsimp only
    all_goals first | rfl | omega
  · intro h1
    split_ifs <;> try dsimp only
    all_goals first | rfl | omega
  · intro h1 h2 h3 h4
    split_ifs <;> try dsimp only
    all_goals first | exact ⟨rfl, rfl⟩ | omega

/-- Witness for C7: three approvals and no refusals give a positive
outlook; one approval against two refusals gives a negative outlook; no
applications give the neutral baseline with zero counts. -/
theorem c7_witness :
    (analyzeDaPrecedent
        [⟨none, [], [], str "Approved", [], [], none, none, []⟩, ⟨none, [], [], str "Approved", [], [], none, none, []⟩,
          ⟨none, [], [], str "Approved", [], [], none, none, []⟩] []).outlook = str "positive" ∧
    (analyzeDaPrecedent
        [⟨none, [], [], str "Refused", [], [], none, none, []⟩, ⟨none, [], [], str "Refused", [], [], none, none, []⟩,
          ⟨none, [], [], str "Approved", [], [], none, none, []⟩] []).outlook = str "negative" ∧
    (analyzeDaPrecedent [] []).outlook = str "neutral" ∧
    (analyzeDaPrecedent [] []).approvedCount = 0 :=
  ⟨(c7_precedent_outlook _ _).2.1 (by decide),
    (c7_precedent_outlook _ _).2.2.2.1 (by decide),
    ((c7_precedent_outlook [] []).1 ⟨rfl, rfl⟩).1,
    ((c7_precedent_outlook [] []).1 ⟨rfl, rfl⟩).2.2.1⟩

end Urbix

namespace Urbix

-- ─────────────────────── buildability.py : data model ───────────────────────

/-- Parcel info as read by `calculate_buildability` (only `area_sqm` is
consumed; `area = float(parcel.get("area_sqm") or 0)`). -/
structure Parcel where
  areaSqm : Option ℚ
deriving DecidableEq

/-- Zone dict `{code, category, label}` from the SCC service. -/
structure Zone where
  code : Str
  category : Str
deriving DecidableEq

/-- One `ZONE_RULES` entry / planning-rules dict.  Numeric fields are
`Option` to model `dict.get` returning `None` for absent keys;
`maxDwellingDensity` defaults to the empty string, the use lists to
`[]`. -/
structure RuleSet where
  zoneCategory : Str
  maxHeightM : Option ℚ
  maxStoreys : Option ℤ
  maxSiteCoverPct : Option ℚ
  frontSetbackM : Option ℚ
  sideSetbackM : Option ℚ
  rearSetbackM : Option ℚ
  minLotSizeSqm : Option ℚ
  minFrontageM : Option ℚ
  maxDwellingDensity : Str
  acceptedUses : List Str
  assessableUses : List Str
deriving DecidableEq

/-- A rules dict with no keys at all (`rules = ... or {}`). -/
def emptyRuleSet : RuleSet :=
  { zoneCategory := [], maxHeightM := none, maxStoreys := none, maxSiteCoverPct := none,
    frontSetbackM := none, sideSetbackM := none, rearSetbackM := none, minLotSizeSqm := none,
    minFrontageM := none, maxDwellingDensity := [], acceptedUses := [], assessableUses := [] }

/-- The static `ZONE_RULES` table of the Sunshine Coast Planning Scheme,
in source (insertion) order. -/
def zoneRulesTable : List (Str × RuleSet) := [
  (str "Low Density Residential Zone",
   { zoneCategory := str "Residential Zones Category", maxHeightM := some 8.5,
     maxStoreys := some 2, maxSiteCoverPct := some 50, frontSetbackM := some 6,
     sideSetbackM := some 1.5, rearSetbackM := some 6, minLotSizeSqm := some 400,
     minFrontageM := some 12, maxDwellingDensity := str "1 per lot",
     acceptedUses := [str "Dwelling house", str "Home-based business",
       str "Caretaker's accommodation"],
     assessableUses := [str "Dual occupancy", str "Secondary dwelling",
       str "Community facility", str "Childcare centre"] }),
  (str "Low-medium Density Residential Zone",
   { zoneCategory := str "Residential Zones Category", maxHeightM := some 12,
     maxStoreys := some 3, maxSiteCoverPct := some 50, frontSetbackM := some 6,
     sideSetbackM := some 2, rearSetbackM := some 6, minLotSizeSqm := some 300,
     minFrontageM := some 10, maxDwellingDensity := str "1 per 300sqm",
     acceptedUses := [str "Dwelling house", str "Dual occupancy", str "Home-based business"],
     assessableUses := [str "Multiple dwelling", str "Short-term accommodation",
       str "Rooming accommodation", str "Childcare centre"] }),
  (str "Medium Density Residential Zone",
   { zoneCategory := str "Residential Zones Category", maxHeightM := some 15,
     maxStoreys := some 4, maxSiteCoverPct := some 50, frontSetbackM := some 6,
     sideSetbackM := some 3, rearSetbackM := some 6, minLotSizeSqm := some 200,
     minFrontageM := some 10, maxDwellingDensity := str "1 per 200sqm",
     acceptedUses := [str "Dwelling house", str "Dual occupancy", str "Multiple dwelling"],
     assessableUses := [str "Short-term accommodation", str "Rooming accommodation",
       str "Retirement facility", str "Childcare centre"] }),
  (str "High Density Residential Zone",
   { zoneCategory := str "Residential Zones Category", maxHeightM := some 22,
     maxStoreys := some 6, maxSiteCoverPct := some 60, frontSetbackM := some 6,
     sideSetbackM := some 3, rearSetbackM := some 6, minLotSizeSqm := some 150,
     minFrontageM := some 15, maxDwellingDensity := str "1 per 100sqm",
     acceptedUses := [str "Dwelling house", str "Dual occupancy", str "Multiple dwelling"],
     assessableUses := [str "Short-term accommodation", str "Rooming accommodation",
       str "Retirement facility", str "Shop (< 250m²)"] }),
  (str "Principal Centre Zone",
   { zoneCategory := str "Centre Zones Category", maxHeightM := some 45,
     maxStoreys := some 12, maxSiteCoverPct := some 80, frontSetbackM := some 0,
     sideSetbackM := some 0, rearSetbackM := some 3, minLotSizeSqm := some 200,
     minFrontageM := none, maxDwellingDensity := str "1 per 50sqm",
     acceptedUses := [str "Shop", str "Office", str "Food and drink outlet",
       str "Multiple dwelling"],
     assessableUses := [str "Hotel", str "Nightclub", str "Indoor sport",
       str "Health care service", str "Educational establishment"] }),
  (str "Major Centre Zone",
   { zoneCategory := str "Centre Zones Category", maxHeightM := some 25,
     maxStoreys := some 7, maxSiteCoverPct := some 80, frontSetbackM := some 0,
     sideSetbackM := some 0, rearSetbackM := some 3, minLotSizeSqm := some 200,
     minFrontageM := none, maxDwellingDensity := str "1 per 75sqm",
     acceptedUses := [str "Shop", str "Office", str "Food and drink outlet",
       str "Multiple dwelling"],
     assessableUses := [str "Hotel", str "Indoor sport", str "Health care service",
       str "Educational establishment"] }),
  (str "District Centre Zone",
   { zoneCategory := str "Centre Zones Category", maxHeightM := some 15,
     maxStoreys := some 4, maxSiteCoverPct := some 70, frontSetbackM := some 0,
     sideSetbackM := some 0, rearSetbackM := some 3, minLotSizeSqm := some 200,
     minFrontageM := none, maxDwellingDensity := str "1 per 100sqm",
     acceptedUses := [str "Shop", str "Office", str "Food and drink outlet",
       str "Health care service"],
     assessableUses := [str "Multiple dwelling", str "Short-term accommodation",
       str "Hotel", str "Childcare centre"] }),
  (str "Local Centre Zone",
   { zoneCategory := str "Centre Zones Category", maxHeightM := some 12,
     maxStoreys := some 3, maxSiteCoverPct := some 60, frontSetbackM := some 0,
     sideSetbackM := some 0, rearSetbackM := some 3, minLotSizeSqm := some 300,
     minFrontageM := none, maxDwellingDensity := str "1 per 150sqm",
     acceptedUses := [str "Shop", str "Food and drink outlet", str "Office (< 250m²)",
       str "Health care service"],
     assessableUses := [str "Multiple dwelling", str "Short-term accommodation",
       str "Childcare centre"] }),
  (str "Neighbourhood Centre Zone",
   { zoneCategory := str "Centre Zones Category", maxHeightM := some 8.5,
     maxStoreys := some 2, maxSiteCoverPct := some 60, frontSetbackM := some 3,
     sideSetbackM := some 0, rearSetbackM := some 3, minLotSizeSqm := some 400,
     minFrontageM := none, maxDwellingDensity := str "1 per 200sqm",
     acceptedUses := [str "Shop (< 500m²)", str "Food and drink outlet",
       str "Health care service"],
     assessableUses := [str "Dwelling house", str "Childcare centre"] }),
  (str "Low Impact Industry Zone",
   { zoneCategory := str "Industry Zones Category", maxHeightM := some 12,
     maxStoreys := some 2, maxSiteCoverPct := some 70, frontSetbackM := some 6,
     sideSetbackM := some 3, rearSetbackM := some 6, minLotSizeSqm := some 1000,
     minFrontageM := some 20, maxDwellingDensity := str "Caretaker only",
     acceptedUses := [str "Low impact industry", str "Warehouse", str "Service industry"],
     assessableUses := [str "Medium impact industry", str "Outdoor storage",
       str "Transport depot"] }),
  (str "Medium Impact Industry Zone",
   { zoneCategory := str "Industry Zones Category", maxHeightM := some 15,
     maxStoreys := some 3, maxSiteCoverPct := some 70, frontSetbackM := some 10,
     sideSetbackM := some 5, rearSetbackM := some 10, minLotSizeSqm := some 2000,
     minFrontageM := some 30, maxDwellingDensity := str "Caretaker only",
     acceptedUses := [str "Medium impact industry", str "Low impact industry",
       str "Warehouse"],
     assessableUses := [str "High impact industry", str "Transport depot",
       str "Outdoor storage"] }),
  (str "High Impact Industry Zone",
   { zoneCategory := str "Industry Zones Category", maxHeightM := some 15,
     maxStoreys := some 3, maxSiteCoverPct := some 70, frontSetbackM := some 20,
     sideSetbackM := some 10, rearSetbackM := some 20, minLotSizeSqm := some 4000,
     minFrontageM := some 50, maxDwellingDensity := str "Caretaker only",
     acceptedUses := [str "High impact industry", str "Medium impact industry",
       str "Special industry"],
     assessableUses := [str "Extractive industry", str "Hazardous chemical facility"] }),
  (str "Sport and Recreation Zone",
   { zoneCategory := str "Specialised Zones Category", maxHeightM := some 12,
     maxStoreys := some 2, maxSiteCoverPct := some 40, frontSetbackM := some 6,
     sideSetbackM := some 3, rearSetbackM := some 6, minLotSizeSqm := none,
     minFrontageM := none, maxDwellingDensity := str "Caretaker only",
     acceptedUses := [str "Park", str "Sport and recreation"],
     assessableUses := [str "Club", str "Food and drink outlet", str "Market"] }),
  (str "Open Space Zone",
   { zoneCategory := str "Specialised Zones Category", maxHeightM := some 8.5,
     maxStoreys := some 2, maxSiteCoverPct := some 10, frontSetbackM := some 6,
     sideSetbackM := some 3, rearSetbackM := some 6, minLotSizeSqm := none,
     minFrontageM := none, maxDwellingDensity := str "None",
     acceptedUses := [str "Park"],
     assessableUses := [str "Environment facility", str "Utility installation"] }),
  (str "Environmental Management and Conservation Zone",
   { zoneCategory := str "Other Zones Category", maxHeightM := some 8.5,
     maxStoreys := some 2, maxSiteCoverPct := some 10, frontSetbackM := some 10,
     sideSetbackM := some 5, rearSetbackM := some 10, minLotSizeSqm := none,
     minFrontageM := none, maxDwellingDensity := str "Caretaker only",
     acceptedUses := [str "Park", str "Nature-based tourism"],
     assessableUses := [str "Environment facility", str "Dwelling house"] }),
  (str "Community Facilities Zone",
   { zoneCategory := str "Specialised Zones Category", maxHeightM := some 12,
     maxStoreys := some 3, maxSiteCoverPct := some 50, frontSetbackM := some 6,
     sideSetbackM := some 3, rearSetbackM := some 6, minLotSizeSqm := none,
     minFrontageM := none, maxDwellingDensity := str "Caretaker only",
     acceptedUses := [str "Community facility", str "Educational establishment",
       str "Hospital"],
     assessableUses := [str "Childcare centre", str "Health care service",
       str "Place of worship"] }),
  (str "Tourist Accommodation Zone",
   { zoneCategory := str "Residential Zones Category", maxHeightM := some 15,
     maxStoreys := some 4, maxSiteCoverPct := some 50, frontSetbackM := some 6,
     sideSetbackM := some 3, rearSetbackM := some 6, minLotSizeSqm := some 800,
     minFrontageM := some 20, maxDwellingDensity := str "1 per 200sqm",
     acceptedUses := [str "Short-term accommodation", str "Tourist park"],
     assessableUses := [str "Multiple dwelling", str "Food and drink outlet",
       str "Shop (< 100m²)", str "Resort complex"] }),
  (str "Rural Zone",
   { zoneCategory := str "Other Zones Category", maxHeightM := some 8.5,
     maxStoreys := some 2, maxSiteCoverPct := some 10, frontSetbackM := some 20,
     sideSetbackM := some 10, rearSetbackM := some 20, minLotSizeSqm := some 40000,
     minFrontageM := some 100, maxDwellingDensity := str "1 per lot",
     acceptedUses := [str "Dwelling house", str "Home-based business",
       str "Animal husbandry", str "Cropping", str "Rural activity"],
     assessableUses := [str "Rural industry", str "Roadside stall", str "Tourist park",
       str "Nature-based tourism", str "Winery"] }),
  (str "Rural Residential Zone",
   { zoneCategory := str "Other Zones Category", maxHeightM := some 8.5,
     maxStoreys := some 2, maxSiteCoverPct := some 15, frontSetbackM := some 10,
     sideSetbackM := some 5, rearSetbackM := some 10, minLotSizeSqm := some 4000,
     minFrontageM := some 40, maxDwellingDensity := str "1 per lot",
     acceptedUses := [str "Dwelling house", str "Home-based business"],
     assessableUses := [str "Dual occupancy", str "Nature-based tourism",
       str "Roadside stall", str "Rural activity"] }),
  (str "Emerging Community Zone",
   { zoneCategory := str "Other Zones Category", maxHeightM := some 8.5,
     maxStoreys := some 2, maxSiteCoverPct := some 50, frontSetbackM := some 6,
     sideSetbackM := some 1.5, rearSetbackM := some 6, minLotSizeSqm := some 600,
     minFrontageM := some 15, maxDwellingDensity := str "1 per lot",
     acceptedUses := [str "Dwelling house", str "Home-based business"],
     assessableUses := [str "Park", str "Community facility"] }),
  (str "Mixed Use Zone",
   { zoneCategory := str "Centre Zones Category", maxHeightM := some 15,
     maxStoreys := some 4, maxSiteCoverPct := some 80, frontSetbackM := some 0,
     sideSetbackM := some 0, rearSetbackM := some 3, minLotSizeSqm := some 200,
     minFrontageM := none, maxDwellingDensity := str "1 per 100sqm",
     acceptedUses := [str "Shop", str "Office", str "Food and drink outlet",
       str "Multiple dwelling"],
     assessableUses := [str "Hotel", str "Health care service",
       str "Short-term accommodation"] }),
  (str "Specialised Centre Zone",
   { zoneCategory := str "Centre Zones Category", maxHeightM := some 12,
     maxStoreys := some 3, maxSiteCoverPct := some 60, frontSetbackM := some 6,
     sideSetbackM := some 3, rearSetbackM := some 6, minLotSizeSqm := some 1000,
     minFrontageM := some 20, maxDwellingDensity := str "Caretaker only",
     acceptedUses := [str "Office", str "Research and technology",
       str "Health care service"],
     assessableUses := [str "Shop", str "Food and drink outlet",
       str "Educational establishment"] })]

/-- `get_zone_rules`: exact key lookup, then the case-insensitive
substring fuzzy match over the table in insertion order.  (The source
decorates the hit with `zone_code`/`source` bookkeeping keys that no
downstream read consumes; they are not modelled.) -/
def getZoneRules (zoneCode : Str) : Option RuleSet :=
  match zoneRulesTable.find? (fun p => p.1 == zoneCode) with
  | some p => some p.2
  | none =>
    let zoneLower := pyLower zoneCode
    match zoneRulesTable.find? (fun p =>
        decide (zoneLower <:+: pyLower p.1) || decide (pyLower p.1 <:+: zoneLower)) with
    | some p => some p.2
    | none => none

/-- `get_planning_rules`: built-in table first, then the external
PostGIS `planning_rules` fallback (`try_db_rules`), passed here as an
explicit environment since the database lives outside this core. -/
def getPlanningRules (db : Str → Option RuleSet) (zoneCode : Str) : Option RuleSet :=
  match getZoneRules zoneCode with
  | some r => some r
  | none => db zoneCode

end Urbix

namespace Urbix

-- ───────────────────── buildability.py : calculator ─────────────────────────

/-- `str(density_rule).split("per")` followed by
`int(parts[0].strip())` and `int("".join(filter(str.isdigit, parts[1])))`
from the max-dwellings block; `none` is the caught
`ValueError`/`IndexError`. -/
def parseDensity (rule : Str) : Option (ℤ × ℕ) :=
  match splitPer rule with
  | [] => none
  | p0 :: rest =>
    match pyParseInt (pyStrip p0) with
    | none => none
    | some units =>
      match rest with
      | [] => none
      | p1 :: _ =>
        let digits := p1.filter Char.isDigit
        if digits ≠ [] then some (units, digitsToNat digits) else none

/-- The max-dwellings derivation of `calculate_buildability`: starts at
1; "N per M" rules (not mentioning "lot") give `max(1, trunc(area/M)·N)`
when they parse and `M > 0`; "lot" rules give 1; `"Caretaker only"` and
`"None"` give 0; everything else (including parse failures) stays 1. -/
def densityDwellings (densityRule : Str) (area : ℚ) : ℤ :=
  if pyTruthy densityRule then
    if str "per" <:+: densityRule ∧ ¬ str "lot" <:+: pyLower densityRule then
      match parseDensity densityRule with
      | some (units, perSqm) =>
        if perSqm > 0 then max 1 (pyTrunc (area / (perSqm : ℚ)) * units) else 1
      | none => 1
    else if str "lot" <:+: pyLower densityRule then 1
    else if densityRule = str "Caretaker only" ∨ densityRule = str "None" then 0
    else 1
  else 1

/-- Categorised overlay constraint notes (the emoji/format strings of the
source carry the same data and are presentation only). -/
inductive ConstraintNote
  | bushfire (label : Str)
  | flood (label : Str)
  | heritage (label : Str)
  | landslide (label : Str)
  | steepLand (label : Str)
  | biodiversity (label : Str)
  | coastal (label : Str)
  | acidSulfate
  | other (category label : Str)
deriving DecidableEq

/-- The per-layer branch of the constraints loop; `none` for the height
overlay category, which is excluded from the note list. -/
def layerNote (cat : Str) (lname : Str) : Option ConstraintNote :=
  if str "bushfire" <:+: pyLower cat then some (ConstraintNote.bushfire lname)
  else if str "flood" <:+: pyLower cat then some (ConstraintNote.flood lname)
  else if str "heritage" <:+: pyLower cat ∨ str "character" <:+: pyLower cat then
    some (ConstraintNote.heritage lname)
  else if str "landslide" <:+: pyLower cat then some (ConstraintNote.landslide lname)
  else if str "steep" <:+: pyLower cat ∨ str "slope" <:+: pyLower cat then
    some (ConstraintNote.steepLand lname)
  else if str "biodiversity" <:+: pyLower cat ∨ str "waterway" <:+: pyLower cat ∨
      str "wetland" <:+: pyLower cat then
    some (ConstraintNote.biodiversity lname)
  else if str "coastal" <:+: pyLower cat then some (ConstraintNote.coastal lname)
  else if str "acid" <:+: pyLower cat then some ConstraintNote.acidSulfate
  else if pyLower cat ≠ str "height of buildings and structures" then
    some (ConstraintNote.other cat lname)
  else none

/-- The overlay constraints loop.  A grouped layer entry always carries a
`label` key, so `layer.get("label", layer.get("name", ""))` reads the
label. -/
def overlayConstraints (overlays : List OverlayGroup) : List ConstraintNote :=
  overlays.flatMap (fun g => g.layers.filterMap (fun l => layerNote g.category l.label))

/-- `float(x) if x else None` applied to an optional number: drop a zero
value. -/
def optTruthy (o : Option ℚ) : Option ℚ :=
  match o with
  | some x => if x = 0 then none else some x
  | none => none

/-- Lot-compliance issue entries (the formatted strings carry the same
data). -/
inductive ComplianceIssue
  | lotTooSmall (areaSqm minLotSizeSqm : ℚ)
  | checkFrontage (minFrontageM : ℚ)
deriving DecidableEq

/-- The `rules` section of the result. -/
structure RulesOut where
  maxHeightM : Option ℚ
  maxStoreys : Option ℤ
  minLotSizeSqm : Option ℚ
  maxSiteCoverPct : ℚ
  frontSetbackM : ℚ
  sideSetbackM : ℚ
  rearSetbackM : ℚ
  minFrontageM : Option ℚ

/-- The `buildable_envelope` section.  The source serialises the two
areas and the GFA through `round(x, 1)` for display; the exact values
are kept here. -/
structure EnvelopeOut where
  maxFootprintSqm : ℝ
  maxGfaSqm : ℝ
  maxDwellings : ℤ
  buildableAreaAfterSetbacksSqm : ℝ

/-- The `subdivision` section. -/
structure SubdivisionOut where
  canSubdivide : Bool
  maxNewLots : ℤ
  minLotSizeSqm : Option ℚ

/-- The `uses` section. -/
structure UsesOut where
  accepted : List Str
  assessable : List Str

/-- The `lot_compliance` section. -/
structure LotComplianceOut where
  compliant : Bool
  issues : List ComplianceIssue

/-- The full result dict of `calculate_buildability` (the constant
`disclaimer` string and the fixed `zone.source` tag are omitted as pure
literals). -/
structure BuildResult where
  zoneCode : Str
  zoneCategory : Str
  rules : RulesOut
  buildableEnvelope : EnvelopeOut
  subdivision : SubdivisionOut
  uses : UsesOut
  constraints : List ConstraintNote
  lotCompliance : LotComplianceOut

/-- `calculate_buildability` either returns the error dict (zero/absent
area) or the full record. -/
inductive CalcResult
  | error (zoneCode zoneCategory : Str) (msg : Str)
  | ok (r : BuildResult)

def missingAreaMsg : Str := str "No lot area data — cannot calculate buildability"

/-- `zone.get("code", "Unknown") if zone else "Unknown"`. -/
def pyZoneCode (zone : Option Zone) : Str :=
  match zone with | some z => z.code | none => str "Unknown"

/-- `zone.get("category", "") if zone else ""`. -/
def pyZoneCategory (zone : Option Zone) : Str :=
  match zone with | some z => z.category | none => []

/-- `if not rules: rules = get_zone_rules(zone_code) or {}`. -/
def resolveRules (zoneCode : Str) (rulesArg : Option RuleSet) : RuleSet :=
  match rulesArg with
  | some r => r
  | none => (getZoneRules zoneCode).getD emptyRuleSet

/-- The non-error branch of `calculate_buildability`: everything the
source computes after the area guard, with `area`, zone identity and the
resolved rules already in hand.  Exact-real embedding: floats are
rationals, `math.sqrt` is `Real.sqrt`. -/
noncomputable def calcRecord (area : ℚ) (zoneCode zoneCategory : Str) (rules : RuleSet)
    (overlays : List OverlayGroup) (heightOverride : Option ℚ) : BuildResult :=
  let maxHeight : Option ℚ := match heightOverride with
      | some h => if h = 0 then rules.maxHeightM else some h
      | none => rules.maxHeightM
    let maxStoreys : Option ℤ := rules.maxStoreys
    let maxSiteCover : ℚ := rules.maxSiteCoverPct.getD 50
    let frontSetback : ℚ := rules.frontSetbackM.getD 6
    let sideSetback : ℚ := rules.sideSetbackM.getD 1.5
    let rearSetback : ℚ := rules.rearSetbackM.getD 6
    let minLotSize : ℚ := rules.minLotSizeSqm.getD 0
    let minFrontage : Option ℚ := rules.minFrontageM
    let densityRule : Str := rules.maxDwellingDensity
    let maxFootprint : ℝ := (area : ℝ) * ((maxSiteCover : ℝ) / 100)
    let sideLength : ℝ := Real.sqrt (area : ℝ)
    let buildableWidth : ℝ := max 0 (sideLength - 2 * (sideSetback : ℝ))
    let buildableDepth : ℝ := max 0 (sideLength - (frontSetback : ℝ) - (rearSetback : ℝ))
    let buildableAreaAfterSetbacks : ℝ := buildableWidth * buildableDepth
    let effectiveFootprint : ℝ := min maxFootprint buildableAreaAfterSetbacks
    let storeys : ℤ := match maxStoreys with
      | some s => if s = 0 then 1 else s
      | none => 1
    let maxGfa : ℝ := effectiveFootprint * (storeys : ℝ)
    let maxDwellings : ℤ := densityDwellings densityRule area
    let canSubdivide : Bool :=
      if minLotSize ≠ 0 then decide (area ≥ minLotSize * 2) else false
    let maxNewLots : ℤ :=
      if minLotSize ≠ 0 ∧ minLotSize > 0 then pyTrunc (area / minLotSize) else 0
    let lotCompliant : Bool := ¬ (minLotSize ≠ 0 ∧ area < minLotSize)
    let complianceIssues : List ComplianceIssue :=
      (if minLotSize ≠ 0 ∧ area < minLotSize then
        [ComplianceIssue.lotTooSmall area minLotSize] else []) ++
      (match minFrontage with
        | some mf => if mf ≠ 0 then [ComplianceIssue.checkFrontage mf] else []
        | none => [])
    { zoneCode := zoneCode
      zoneCategory := zoneCategory
      rules :=
        { maxHeightM := optTruthy maxHeight
          maxStoreys := maxStoreys
          minLotSizeSqm := optTruthy (some minLotSize)
          maxSiteCoverPct := maxSiteCover
          frontSetbackM := frontSetback
          sideSetbackM := sideSetback
          rearSetbackM := rearSetback
          minFrontageM := optTruthy minFrontage }
      buildableEnvelope :=
        { maxFootprintSqm := effectiveFootprint
          maxGfaSqm := maxGfa
          maxDwellings := maxDwellings
          buildableAreaAfterSetbacksSqm := buildableAreaAfterSetbacks }
      subdivision :=
        { canSubdivide := canSubdivide
          maxNewLots := maxNewLots
          minLotSizeSqm := optTruthy (some minLotSize) }
      uses := { accepted := rules.acceptedUses, assessable := rules.assessableUses }
      constraints := overlayConstraints overlays
      lotCompliance := { compliant := lotCompliant, issues := complianceIssues } }

/-- `calculate_buildability`: resolve area, zone identity and rules, then
either the missing-area error dict or the full result record. -/
noncomputable def calculateBuildability (parcel : Parcel) (zone : Option Zone)
    (rulesArg : Option RuleSet) (overlays : List OverlayGroup)
    (heightOverride : Option ℚ) : CalcResult :=
  let area : ℚ := parcel.areaSqm.getD 0
  let zoneCode : Str := pyZoneCode zone
  let zoneCategory : Str := pyZoneCategory zone
  let rules : RuleSet := resolveRules zoneCode rulesArg
  if area = 0 then CalcResult.error zoneCode zoneCategory missingAreaMsg
  else CalcResult.ok (calcRecord area zoneCode zoneCategory rules overlays heightOverride)

/-- `isOk` of the result. -/
def CalcResult.isOk : CalcResult → Bool
  | CalcResult.error _ _ _ => false
  | CalcResult.ok _ => true

theorem calculateBuildability_ok (parcel : Parcel) (zone : Option Zone)
    (rulesArg : Option RuleSet) (overlays : List OverlayGroup) (heightOverride : Option ℚ)
    (h : parcel.areaSqm.getD 0 ≠ 0) :
    calculateBuildability parcel zone rulesArg overlays heightOverride =
      CalcResult.ok (calcRecord (parcel.areaSqm.getD 0) (pyZoneCode zone)
        (pyZoneCategory zone) (resolveRules (pyZoneCode zone) rulesArg) overlays
        heightOverride) := by
  unfold calculateBuildability
  try dsimp only
  rw [if_neg h]

theorem calculateBuildability_missing_area (parcel : Parcel) (zone : Option Zone)
    (rulesArg : Option RuleSet) (overlays : List OverlayGroup) (heightOverride : Option ℚ)
    (h : parcel.areaSqm.getD 0 = 0) :
    calculateBuildability parcel zone rulesArg overlays heightOverride =
      CalcResult.error (pyZoneCode zone) (pyZoneCategory zone) missingAreaMsg := by
  unfold calculateBuildability
  try dsimp only
  rw [if_pos h]

end Urbix

namespace Urbix

-- ──────────────── string-scanning lemmas for the density parser ──────────────

theorem digit_bounds (c : Char) (h : c.isDigit = true) : 48 ≤ c.toNat ∧ c.toNat ≤ 57 := by
  simpa [Char.isDigit] using h

theorem digit_ne (c : Char) (h : c.isDigit = true) (d : Char)
    (hd : 57 < d.toNat ∨ d.toNat < 48) : c ≠ d := by
  obtain ⟨h1, h2⟩ := digit_bounds c h
  intro he
  subst he
  omega

theorem digit_toLower (c : Char) (h : c.isDigit = true) : c.toLower = c := by
  obtain ⟨h1, h2⟩ := digit_bounds c h
  unfold Char.toLower
  rw [if_neg]
  omega

theorem digit_not_ws (c : Char) (h : c.isDigit = true) : c.isWhitespace = false := by
  have h9 : c ≠ ' ' := digit_ne c h ' ' (by decide)
  have ht : c ≠ '\t' := digit_ne c h '\t' (by decide)
  have hr : c ≠ '\r' := digit_ne c h '\r' (by decide)
  have hn : c ≠ '\n' := digit_ne c h '\n' (by decide)
  simp [Char.isWhitespace, h9, ht, hr, hn]

theorem splitPer_cons_ne (c : Char) (cs : Str) (hc : c ≠ 'p') :
    splitPer (c :: cs) = consHead c (splitPer cs) := by
  rw [splitPer.eq_def]
  split
  · simp_all
  · rename_i h
    exfalso
    exact hc (by injection h)
  · rename_i h1 h2
    injection h2 with e1 e2
    subst e1
    subst e2
    rfl

theorem splitPer_ne_nil (s : Str) : splitPer s ≠ [] := by
  induction s with
  | nil => simp [splitPer]
  | cons c cs ih =>
    rw [splitPer.eq_def]
    split
    · simp
    · simp
    · rename_i h1 h2
      injection h2 with e1 e2
      subst e1
      subst e2
      unfold consHead
      split <;> simp

theorem splitPer_no_p (s : Str) (h : ∀ c ∈ s, c ≠ 'p') : splitPer s = [s] := by
  induction s with
  | nil => rfl
  | cons c cs ih =>
    rw [splitPer_cons_ne c cs (h c (List.mem_cons_self c cs))]
    rw [ih (fun x hx => h x (List.mem_cons_of_mem _ hx))]
    rfl

theorem splitPer_append_no_p (xs : Str) (hx : ∀ c ∈ xs, c ≠ 'p') (t : Str) (p : Str)
    (ps : List Str) (ht : splitPer t = p :: ps) :
    splitPer (xs ++ t) = (xs ++ p) :: ps := by
  induction xs with
  | nil => simpa using ht
  | cons c xs ih =>
    have hc : c ≠ 'p' := hx c (List.mem_cons_self c xs)
    rw [List.cons_append, splitPer_cons_ne c _ hc,
      ih (fun x h2 => hx x (List.mem_cons_of_mem _ h2))]
    rfl

theorem dropWhile_ws_digits (xs : Str) (hd : ∀ c ∈ xs, c.isDigit = true) :
    xs.dropWhile Char.isWhitespace = xs := by
  cases xs with
  | nil => rfl
  | cons c cs =>
    rw [List.dropWhile_cons]
    rw [digit_not_ws c (hd c (List.mem_cons_self c cs))]
    simp

theorem pyStrip_digits_space (xs : Str) (hne : xs ≠ []) (hd : ∀ c ∈ xs, c.isDigit = true) :
    pyStrip (xs ++ [' ']) = xs := by
  unfold pyStrip
  obtain ⟨c, cs, rfl⟩ : ∃ c cs, xs = c :: cs := by
    cases xs with
    | nil => exact absurd rfl hne
    | cons c cs => exact ⟨c, cs, rfl⟩
  rw [List.cons_append, List.dropWhile_cons]
  rw [digit_not_ws c (hd c (List.mem_cons_self c cs))]
  simp only [Bool.false_eq_true, if_false]
  rw [show (c :: (cs ++ [' '])).reverse = ' ' :: (cs.reverse ++ [c]) by simp]
  rw [List.dropWhile_cons]
  have : (' ' : Char).isWhitespace = true := by decide
  rw [this]
  simp only [if_true]
  have hrev : ∀ x ∈ cs.reverse ++ [c], x.isDigit = true := by
    intro x hx
    rcases List.mem_append.mp hx with h | h
    · exact hd x (List.mem_cons_of_mem _ (List.mem_reverse.mp h))
    · simp at h
      subst h
      exact hd x (List.mem_cons_self _ _)
  rw [dropWhile_ws_digits _ hrev]
  simp

theorem pyParseInt_digits (xs : Str) (hne : xs ≠ []) (hd : ∀ c ∈ xs, c.isDigit = true) :
    pyParseInt xs = some (digitsToNat xs : ℤ) := by
  obtain ⟨c, cs, rfl⟩ : ∃ c cs, xs = c :: cs := by
    cases xs with
    | nil => exact absurd rfl hne
    | cons c cs => exact ⟨c, cs, rfl⟩
  have hc := hd c (List.mem_cons_self c cs)
  simp only [pyParseInt]
  rw [if_neg (digit_ne c hc '-' (by decide)), if_neg (digit_ne c hc '+' (by decide)),
    if_pos (List.all_eq_true.mpr hd)]

theorem filter_digits_tail (dM : Str) (hd : ∀ c ∈ dM, c.isDigit = true) :
    (' ' :: (dM ++ str "sqm")).filter Char.isDigit = dM := by
  rw [List.filter_cons]
  have : (' ' : Char).isDigit = false := by decide
  rw [this]
  simp only [Bool.false_eq_true, if_false]
  rw [List.filter_append]
  rw [List.filter_eq_self.mpr hd]
  have : (str "sqm").filter Char.isDigit = [] := by decide
  rw [this, List.append_nil]

end Urbix

namespace Urbix

/-- A density rule string of the form `"N per Msqm"`, with the two
numerals given as digit strings. -/
def mkDensityRule (dN dM : Str) : Str := dN ++ str " per " ++ dM ++ str "sqm"

theorem forall_mem_digits (l : Str) (h : l.all Char.isDigit = true) :
    ∀ c ∈ l, c.isDigit = true := List.all_eq_true.mp h

theorem mkDensityRule_form (dN dM : Str) :
    mkDensityRule dN dM =
      (dN ++ [' ']) ++ ('p' :: 'e' :: 'r' :: (' ' :: (dM ++ str "sqm"))) := by
  unfold mkDensityRule
  rw [show str " per " = [' ', 'p', 'e', 'r', ' '] from rfl]
  simp

theorem no_p_tail (dM : Str) (hMd : ∀ c ∈ dM, c.isDigit = true) :
    ∀ c ∈ ' ' :: (dM ++ str "sqm"), c ≠ 'p' := by
  intro c hc
  rcases List.mem_cons.mp hc with rfl | hc2
  · decide
  rcases List.mem_append.mp hc2 with h | h
  · exact digit_ne c (hMd c h) 'p' (by decide)
  · rw [show str "sqm" = ['s', 'q', 'm'] from rfl] at h
    simp at h
    rcases h with rfl | rfl | rfl <;> decide

theorem parseDensity_mk (dN dM : Str) (hN : dN ≠ []) (hM : dM ≠ [])
    (hNd : ∀ c ∈ dN, c.isDigit = true) (hMd : ∀ c ∈ dM, c.isDigit = true) :
    parseDensity (mkDensityRule dN dM) = some ((digitsToNat dN : ℤ), digitsToNat dM) := by
  have hxs : ∀ c ∈ dN ++ [' '], c ≠ 'p' := by
    intro c hc
    rcases List.mem_append.mp hc with h | h
    · exact digit_ne c (hNd c h) 'p' (by decide)
    · simp at h
      subst h
      decide
  have hrest : splitPer (' ' :: (dM ++ str "sqm")) = [' ' :: (dM ++ str "sqm")] :=
    splitPer_no_p _ (no_p_tail dM hMd)
  have hinner : splitPer ('p' :: 'e' :: 'r' :: (' ' :: (dM ++ str "sqm"))) =
      [[], ' ' :: (dM ++ str "sqm")] := by
    rw [show splitPer ('p' :: 'e' :: 'r' :: (' ' :: (dM ++ str "sqm"))) =
      [] :: splitPer (' ' :: (dM ++ str "sqm")) from rfl, hrest]
  have hsplit : splitPer (mkDensityRule dN dM) =
      [dN ++ [' '], ' ' :: (dM ++ str "sqm")] := by
    rw [mkDensityRule_form]
    rw [splitPer_append_no_p (dN ++ [' ']) hxs _ [] [' ' :: (dM ++ str "sqm")] hinner]
    simp
  unfold parseDensity
  rw [hsplit]
  simp only
  rw [pyStrip_digits_space dN hN hNd, pyParseInt_digits dN hN hNd]
  simp only
  rw [filter_digits_tail dM hMd]
  rw [if_pos hM]

theorem lower_mk_no_l (dN dM : Str) (hNd : ∀ c ∈ dN, c.isDigit = true)
    (hMd : ∀ c ∈ dM, c.isDigit = true) : 'l' ∉ pyLower (mkDensityRule dN dM) := by
  unfold pyLower
  intro h
  obtain ⟨a, ha, hla⟩ := List.mem_map.mp h
  unfold mkDensityRule at ha
  rcases List.mem_append.mp ha with h2 | h2
  · rcases List.mem_append.mp h2 with h3 | h3
    · rcases List.mem_append.mp h3 with h4 | h4
      · rw [digit_toLower a (hNd a h4)] at hla
        exact absurd hla (digit_ne a (hNd a h4) 'l' (by decide))
      · rw [show str " per " = [' ', 'p', 'e', 'r', ' '] from rfl] at h4
        fin_cases h4 <;> exact absurd hla (by decide)
    · rw [digit_toLower a (hMd a h3)] at hla
      exact absurd hla (digit_ne a (hMd a h3) 'l' (by decide))
  · rw [show str "sqm" = ['s', 'q', 'm'] from rfl] at h2
    simp at h2
    rcases h2 with rfl | rfl | rfl <;> exact absurd hla (by decide)

theorem pyTrunc_of_nonneg (q : ℚ) (h : 0 ≤ q) : pyTrunc q = ⌊q⌋ := if_pos h

theorem densityDwellings_mk (dN dM : Str) (area : ℚ) (hN : dN ≠ []) (hM : dM ≠ [])
    (hNd : ∀ c ∈ dN, c.isDigit = true) (hMd : ∀ c ∈ dM, c.isDigit = true)
    (hMpos : 0 < digitsToNat dM) :
    densityDwellings (mkDensityRule dN dM) area =
      max 1 (pyTrunc (area / (digitsToNat dM : ℚ)) * (digitsToNat dN : ℤ)) := by
  have htruthy : pyTruthy (mkDensityRule dN dM) = true := by
    simp [pyTruthy, mkDensityRule, str]
  have hper : str "per" <:+: mkDensityRule dN dM := by
    refine ⟨dN ++ [' '], ' ' :: (dM ++ str "sqm"), ?_⟩
    rw [show str "per" = ['p', 'e', 'r'] from rfl]
    rw [mkDensityRule_form]
    simp
  have hlot : ¬ str "lot" <:+: pyLower (mkDensityRule dN dM) := by
    intro h
    exact lower_mk_no_l dN dM hNd hMd (h.subset (by decide))
  unfold densityDwellings
  rw [if_pos htruthy, if_pos ⟨hper, hlot⟩, parseDensity_mk dN dM hN hM hNd hMd]
  simp only
  rw [if_pos hMpos]

end Urbix

namespace Urbix

/-- **C3 counterexample.** The claim as frozen says a `"N per M sqm"`
rule yields exactly `N × floor(area / M)`, which would be 0 for
`"1 per 200sqm"` on a 100 m² lot; the source clamps with `max(1, ·)` and
returns 1. -/
theorem c3_counterexample :
    densityDwellings (str "1 per 200sqm") 100 = 1 ∧
    (1 : ℤ) * ⌊(100 : ℚ) / 200⌋ = 0 := by
  constructor
  · have h := densityDwellings_mk (str "1") (str "200") 100 (by decide) (by decide)
      (forall_mem_digits _ (by decide)) (forall_mem_digits _ (by decide)) (by decide)
    rw [show mkDensityRule (str "1") (str "200") = str "1 per 200sqm" from rfl,
      show digitsToNat (str "200") = 200 from rfl,
      show digitsToNat (str "1") = 1 from rfl] at h
    rw [h, pyTrunc_of_nonneg _ (by norm_num)]
    norm_num
  · norm_num

/-- **C3 (amended).** For every positive area: a `"N per Msqm"` rule
(digit numerals, `M > 0`) yields `max(1, N × floor(area / M))` — the
claim's `N × floor(area / M)` clamped below at 1; a rule containing
"lot" yields 1 regardless of area; `"Caretaker only"` and `"None"` yield
0; unparseable rules (failed numeral parse, or no branch matched, or the
empty rule) yield 1; and the calculator reports exactly this parser's
value as `max_dwellings`. -/
theorem c3_density_dwellings (area : ℚ) (h : 0 < area) :
    (∀ dN dM : Str, dN ≠ [] → dM ≠ [] → (∀ c ∈ dN, c.isDigit = true) →
      (∀ c ∈ dM, c.isDigit = true) → 0 < digitsToNat dM →
      densityDwellings (mkDensityRule dN dM) area =
        max 1 ((digitsToNat dN : ℤ) * ⌊area / (digitsToNat dM : ℚ)⌋)) ∧
    (∀ rule : Str, pyTruthy rule = true → str "lot" <:+: pyLower rule →
      densityDwellings rule area = 1) ∧
    densityDwellings (str "Caretaker only") area = 0 ∧
    densityDwellings (str "None") area = 0 ∧
    (∀ rule : Str, str "per" <:+: rule → ¬ str "lot" <:+: pyLower rule →
      parseDensity rule = none → densityDwellings rule area = 1) ∧
    (∀ rule : Str, pyTruthy rule = true → ¬ str "per" <:+: rule →
      ¬ str "lot" <:+: pyLower rule → rule ≠ str "Caretaker only" → rule ≠ str "None" →
      densityDwellings rule area = 1) ∧
    densityDwellings [] area = 1 ∧
    (∀ (rs : RuleSet) (z : Option Zone) (ov : List OverlayGroup) (ho : Option ℚ)
      (r : BuildResult),
      calculateBuildability ⟨some area⟩ z (some rs) ov ho = CalcResult.ok r →
      r.buildableEnvelope.maxDwellings = densityDwellings rs.maxDwellingDensity area) := by
  refine ⟨?_, ?_, ?_, ?_, ?_, ?_, ?_, ?_⟩
  · intro dN dM hN hM hNd hMd hMpos
    rw [densityDwellings_mk dN dM area hN hM hNd hMd hMpos]
    rw [pyTrunc_of_nonneg _ (by positivity)]
    rw [Int.mul_comm]
  · intro rule htr hlot
    unfold densityDwellings
    rw [if_pos htr, if_neg (fun hc => hc.2 hlot), if_pos hlot]
  · unfold densityDwellings
    rw [if_pos (by decide), if_neg (by decide), if_neg (by decide), if_pos (Or.inl rfl)]
  · unfold densityDwellings
    rw [if_pos (by decide), if_neg (by decide), if_neg (by decide), if_pos (Or.inr rfl)]
  · intro rule hper hlot hparse
    have hne : rule ≠ [] := by
      rintro rfl
      exact (by decide : ¬ str "per" <:+: ([] : Str)) hper
    unfold densityDwellings
    rw [if_pos (by simp [pyTruthy, hne]), if_pos ⟨hper, hlot⟩, hparse]
  · intro rule htr hper hlot hct hnone
    unfold densityDwellings
    rw [if_pos htr, if_neg (fun hc => hper hc.1), if_neg hlot,
      if_neg (fun hc => by rcases hc with hc | hc; exact hct hc; exact hnone hc)]
  · simp [densityDwellings, pyTruthy]
  · intro rs z ov ho r hcalc
    rw [calculateBuildability_ok _ _ _ _ _ (by simpa using h.ne')] at hcalc
    injection hcalc with h2
    subst h2
    rfl

/-- Witness for C3 at the spec's own examples: `"1 per 200sqm"` on a
1000 m² lot yields 5, `"1 per lot"` yields 1, `"Caretaker only"` yields
0. -/
theorem c3_witness :
    densityDwellings (str "1 per 200sqm") 1000 = 5 ∧
    densityDwellings (str "1 per lot") 1000 = 1 ∧
    densityDwellings (str "Caretaker only") 1000 = 0 := by
  refine ⟨?_, ?_, ?_⟩
  · have h := (c3_density_dwellings 1000 (by norm_num)).1 (str "1") (str "200")
      (by decide) (by decide) (forall_mem_digits _ (by decide))
      (forall_mem_digits _ (by decide)) (by decide)
    rw [show mkDensityRule (str "1") (str "200") = str "1 per 200sqm" from rfl] at h
    rw [h, show digitsToNat (str "200") = 200 from rfl, show digitsToNat (str "1") = 1 from rfl]
    norm_num
  · exact (c3_density_dwellings 1000 (by norm_num)).2.1 (str "1 per lot") (by decide)
      (by decide)
  · exact (c3_density_dwellings 1000 (by norm_num)).2.2.1

end Urbix

namespace Urbix

/-- **C2 counterexample.** The claim as frozen says the calculator fails
with `UnknownZone` when no built-in (exact or fuzzy) rule entry matches
and the external fallback resolves nothing.  `"Unknown"` matches no
entry and the empty fallback resolves nothing, yet the calculator
returns a full (non-error) result — no `UnknownZone` failure exists in
the code. -/
theorem c2_counterexample :
    getZoneRules (str "Unknown") = none ∧
    getPlanningRules (fun _ => none) (str "Unknown") = none ∧
    (calculateBuildability ⟨some 650⟩ (some ⟨str "Unknown", []⟩) none [] none).isOk = true := by
  refine ⟨rfl, rfl, rfl⟩

/-- **C2 (amended).** The calculator fails with the missing-area error
record exactly when the parcel's area is absent or zero; when the zone
code matches no exact or case-insensitive-substring rule-table entry and
the external rule-table fallback resolves nothing, it does *not* fail
(no `UnknownZone` error exists): it returns a full result computed from
built-in defaults. -/
theorem c2_error_behaviour :
    (∀ (p : Parcel) (z : Option Zone) (rulesArg : Option RuleSet) (ov : List OverlayGroup)
      (ho : Option ℚ), p.areaSqm.getD 0 = 0 →
      calculateBuildability p z rulesArg ov ho =
        CalcResult.error (pyZoneCode z) (pyZoneCategory z) missingAreaMsg) ∧
    (∀ (p : Parcel) (z : Option Zone) (ov : List OverlayGroup) (ho : Option ℚ)
      (db : Str → Option RuleSet),
      p.areaSqm.getD 0 ≠ 0 → getPlanningRules db (pyZoneCode z) = none →
      (calculateBuildability p z none ov ho).isOk = true) := by
  constructor
  · intro p z rulesArg ov ho hz
    exact calculateBuildability_missing_area p z rulesArg ov ho hz
  · intro p z ov ho db hne hnr
    rw [calculateBuildability_ok _ _ _ _ _ hne]
    rfl

/-- Witness for C2: an absent area gives the missing-area error record;
a 650 m² parcel in an unmatched zone still computes. -/
theorem c2_witness :
    calculateBuildability ⟨none⟩ none none [] none =
      CalcResult.error (str "Unknown") [] missingAreaMsg ∧
    (calculateBuildability ⟨some 650⟩ (some ⟨str "Unknown", []⟩) none [] none).isOk = true :=
  ⟨c2_error_behaviour.1 ⟨none⟩ none none [] none rfl,
   c2_error_behaviour.2 ⟨some 650⟩ (some ⟨str "Unknown", []⟩) [] none (fun _ => none)
     (by decide) rfl⟩

/-- **C8.** With a positive minimum lot size `m` in the resolved rules,
the calculator reports `can_subdivide` exactly when `area ≥ 2m`, and
`max_new_lots = floor(area / m)`; with no minimum lot size defined it
reports `false` and `0`. -/
theorem c8_subdivision :
    (∀ (a m : ℚ) (rs : RuleSet) (z : Option Zone) (ov : List OverlayGroup) (ho : Option ℚ)
      (r : BuildResult),
      0 < a → rs.minLotSizeSqm = some m → 0 < m →
      calculateBuildability ⟨some a⟩ z (some rs) ov ho = CalcResult.ok r →
      ((r.subdivision.canSubdivide = true ↔ m * 2 ≤ a) ∧
        r.subdivision.maxNewLots = ⌊a / m⌋)) ∧
    (∀ (a : ℚ) (rs : RuleSet) (z : Option Zone) (ov : List OverlayGroup) (ho : Option ℚ)
      (r : BuildResult),
      0 < a → rs.minLotSizeSqm = none →
      calculateBuildability ⟨some a⟩ z (some rs) ov ho = CalcResult.ok r →
      r.subdivision.canSubdivide = false ∧ r.subdivision.maxNewLots = 0) := by
  constructor
  · intro a m rs z ov ho r ha hm hmpos hcalc
    rw [calculateBuildability_ok _ _ _ _ _ (by simpa using ha.ne')] at hcalc
    injection hcalc with h2
    subst h2
    unfold calcRecord resolveRules
    dsimp only
    rw [hm]
    simp only [Option.getD_some]
    constructor
    · rw [if_pos (ne_of_gt hmpos)]
      simp [ge_iff_le]
    · rw [if_pos ⟨ne_of_gt hmpos, hmpos⟩]
      exact pyTrunc_of_nonneg _ (by positivity)
  · intro a rs z ov ho r ha hm hcalc
    rw [calculateBuildability_ok _ _ _ _ _ (by simpa using ha.ne')] at hcalc
    injection hcalc with h2
    subst h2
    unfold calcRecord resolveRules
    dsimp only
    rw [hm]
    simp

/-- Witness for C8: a 900 m² lot against a 400 m² minimum lot size gives
`can_subdivide = true` and `max_new_lots = 2`. -/
theorem c8_witness :
    (calcRecord 900 (str "Unknown") [] { emptyRuleSet with minLotSizeSqm := some 400 } []
      none).subdivision.canSubdivide = true ∧
    (calcRecord 900 (str "Unknown") [] { emptyRuleSet with minLotSizeSqm := some 400 } []
      none).subdivision.maxNewLots = 2 := by
  have h := c8_subdivision.1 900 400 { emptyRuleSet with minLotSizeSqm := some 400 } none []
    none
    (calcRecord ((⟨some 900⟩ : Parcel).areaSqm.getD 0) (pyZoneCode none) (pyZoneCategory none)
      (resolveRules (pyZoneCode none) (some { emptyRuleSet with minLotSizeSqm := some 400 }))
      [] none)
    (by norm_num) rfl (by norm_num)
    (calculateBuildability_ok ⟨some 900⟩ none
      (some { emptyRuleSet with minLotSizeSqm := some 400 }) [] none (by decide))
  exact ⟨h.1.mpr (by norm_num), h.2.trans (by norm_num)⟩

/-- **C10.** For every parcel with positive area and every zone input —
including zone codes with no rule-table entry — the calculator returns a
complete (non-error) result; when no rules resolve it silently
substitutes the defaults: 50 % site cover, 6 m front, 1.5 m side and 6 m
rear setbacks, no minimum lot size, unbounded height, one storey (GFA =
footprint), one dwelling, no subdivision, empty use lists, compliant
lot. -/
theorem c10_total_with_defaults :
    (∀ (p : Parcel) (a : ℚ) (z : Option Zone) (rulesArg : Option RuleSet)
      (ov : List OverlayGroup) (ho : Option ℚ), p.areaSqm = some a → 0 < a →
      (calculateBuildability p z rulesArg ov ho).isOk = true) ∧
    (∀ (a : ℚ) (z : Option Zone) (ov : List OverlayGroup) (r : BuildResult), 0 < a →
      getZoneRules (pyZoneCode z) = none →
      calculateBuildability ⟨some a⟩ z none ov none = CalcResult.ok r →
      r.rules.maxSiteCoverPct = 50 ∧ r.rules.frontSetbackM = 6 ∧
      r.rules.sideSetbackM = 1.5 ∧ r.rules.rearSetbackM = 6 ∧
      r.rules.minLotSizeSqm = none ∧ r.rules.maxHeightM = none ∧
      r.rules.maxStoreys = none ∧ r.rules.minFrontageM = none ∧
      r.buildableEnvelope.maxGfaSqm = r.buildableEnvelope.maxFootprintSqm ∧
      r.buildableEnvelope.maxDwellings = 1 ∧
      r.subdivision.canSubdivide = false ∧ r.subdivision.maxNewLots = 0 ∧
      r.uses.accepted = [] ∧ r.uses.assessable = [] ∧
      r.lotCompliance.compliant = true ∧ r.lotCompliance.issues = []) := by
  constructor
  · intro p a z rulesArg ov ho hpa ha
    rw [calculateBuildability_ok _ _ _ _ _ (by rw [hpa]; simpa using ha.ne')]
    rfl
  · intro a z ov r ha hnr hcalc
    have hrules : resolveRules (pyZoneCode z) none = emptyRuleSet := by
      unfold resolveRules
      rw [hnr]
      rfl
    rw [calculateBuildability_ok _ _ _ _ _ (by simpa using ha.ne'), hrules] at hcalc
    injection hcalc with h2
    subst h2
    refine ⟨rfl, rfl, rfl, rfl, rfl, rfl, rfl, rfl, ?_, ?_, ?_, ?_, rfl, rfl, ?_, rfl⟩
    · show (calcRecord _ _ _ _ _ _).buildableEnvelope.maxGfaSqm = _
      unfold calcRecord
      dsimp only
      simp [emptyRuleSet]
    · show (calcRecord _ _ _ _ _ _).buildableEnvelope.maxDwellings = 1
      unfold calcRecord
      dsimp only
      simp [densityDwellings, emptyRuleSet, pyTruthy]
    · show (calcRecord _ _ _ _ _ _).subdivision.canSubdivide = false
      unfold calcRecord
      dsimp only
      simp [emptyRuleSet]
    · show (calcRecord _ _ _ _ _ _).subdivision.maxNewLots = 0
      unfold calcRecord
      dsimp only
      simp [emptyRuleSet]
    · show (calcRecord _ _ _ _ _ _).lotCompliance.compliant = true
      unfold calcRecord
      dsimp only
      simp [emptyRuleSet]

/-- Witness for C10 at a 500 m² parcel with no zone information. -/
theorem c10_witness :
    (calculateBuildability ⟨some 500⟩ none none [] none).isOk = true ∧
    (calcRecord 500 (str "Unknown") [] emptyRuleSet [] none).rules.maxSiteCoverPct = 50 :=
  ⟨c10_total_with_defaults.1 ⟨some 500⟩ 500 none none [] none rfl (by norm_num),
   (c10_total_with_defaults.2 500 none []
     (calcRecord ((⟨some 500⟩ : Parcel).areaSqm.getD 0) (pyZoneCode none)
       (pyZoneCategory none) (resolveRules (pyZoneCode none) none) [] none)
     (by norm_num) rfl
     (calculateBuildability_ok ⟨some 500⟩ none none [] none (by decide))).1⟩

end Urbix

namespace Urbix

/-- The zone rule inputs of the spec's end-to-end example: 50 % site
cover, 6 m front, 1.5 m side, 6 m rear setbacks. -/
def rules600 : RuleSet :=
  { emptyRuleSet with
    maxSiteCoverPct := some 50
    frontSetbackM := some 6
    sideSetbackM := some 1.5
    rearSetbackM := some 6 }

/-- The reported effective footprint of a result (0 for the error
record). -/
noncomputable def footprintOf : CalcResult → ℝ
  | CalcResult.ok r => r.buildableEnvelope.maxFootprintSqm
  | CalcResult.error _ _ _ => 0

theorem sqrt_six_sq : Real.sqrt 6 ^ 2 = 6 := Real.sq_sqrt (by norm_num)

theorem sqrt_six_lb : (2.4494 : ℝ) ≤ Real.sqrt 6 := by
  nlinarith [sqrt_six_sq, Real.sqrt_nonneg 6]

theorem sqrt_six_ub : Real.sqrt 6 ≤ (2.4495 : ℝ) := by
  nlinarith [sqrt_six_sq, Real.sqrt_nonneg 6]

theorem footprint600 :
    footprintOf (calculateBuildability ⟨some 600⟩ none (some rules600) [] none) =
      636 - 150 * Real.sqrt 6 := by
  rw [calculateBuildability_ok ⟨some 600⟩ none (some rules600) [] none (by decide)]
  show (calcRecord _ _ _ _ _ _).buildableEnvelope.maxFootprintSqm = _
  unfold calcRecord resolveRules
  dsimp only
  simp only [rules600, emptyRuleSet, Option.getD_some]
  have hs : Real.sqrt (((600 : ℚ)) : ℝ) = 10 * Real.sqrt 6 := by
    rw [show (((600 : ℚ)) : ℝ) = 10 ^ 2 * 6 by norm_num]
    rw [Real.sqrt_mul (by positivity), Real.sqrt_sq (by norm_num)]
  rw [hs]
  have h1 : (0 : ℝ) ≤ 10 * Real.sqrt 6 - 2 * ((1.5 : ℚ) : ℝ) := by
    have := sqrt_six_lb
    push_cast
    nlinarith
  have h2 : (0 : ℝ) ≤ 10 * Real.sqrt 6 - ((6 : ℚ) : ℝ) - ((6 : ℚ) : ℝ) := by
    have := sqrt_six_lb
    push_cast
    nlinarith
  rw [max_eq_right h1, max_eq_right h2]
  have h3 : (10 * Real.sqrt 6 - 2 * ((1.5 : ℚ) : ℝ)) *
      (10 * Real.sqrt 6 - ((6 : ℚ) : ℝ) - ((6 : ℚ) : ℝ)) ≤
      (((600 : ℚ)) : ℝ) * (((50 : ℚ) : ℝ) / 100) := by
    have := sqrt_six_lb
    have := sqrt_six_sq
    push_cast
    nlinarith
  rw [min_eq_right h3]
  have := sqrt_six_sq
  push_cast
  nlinarith

/-- **C4 counterexample.** The frozen claim puts the effective footprint
of the 600 m² example at exactly 268.75 m² (the spec rounded √600 to
24.5); the exact value is `636 − 150·√6 ≈ 268.58`. -/
theorem c4_counterexample :
    footprintOf (calculateBuildability ⟨some 600⟩ none (some rules600) [] none) ≠
      (268.75 : ℝ) := by
  rw [footprint600]
  intro heq
  nlinarith [sqrt_six_sq, Real.sqrt_nonneg 6]

/-- **C4 (amended).** The calculator models the parcel as a √area
square: buildable width `max(0, side − 2·side-setback)`, depth
`max(0, side − front − rear)`, and reports effective footprint
`min(max footprint, width × depth)`.  For the 600 m² example (cover 50 %,
front 6, side 1.5, rear 6) the effective footprint is exactly
`636 − 150·√6 ≈ 268.58 m²` — strictly below the 300 m² coverage bound,
so the setback bound is the tighter of the two. -/
theorem c4_envelope :
    (∀ (a cov fr sd rr : ℚ) (rs : RuleSet) (z : Option Zone) (ov : List OverlayGroup)
      (ho : Option ℚ) (r : BuildResult), 0 < a →
      rs.maxSiteCoverPct = some cov → rs.frontSetbackM = some fr →
      rs.sideSetbackM = some sd → rs.rearSetbackM = some rr →
      calculateBuildability ⟨some a⟩ z (some rs) ov ho = CalcResult.ok r →
      (r.buildableEnvelope.buildableAreaAfterSetbacksSqm =
        max 0 (Real.sqrt a - 2 * sd) * max 0 (Real.sqrt a - fr - rr) ∧
       r.buildableEnvelope.maxFootprintSqm =
        min ((a : ℝ) * ((cov : ℝ) / 100))
          (max 0 (Real.sqrt a - 2 * sd) * max 0 (Real.sqrt a - fr - rr)))) ∧
    footprintOf (calculateBuildability ⟨some 600⟩ none (some rules600) [] none) =
      636 - 150 * Real.sqrt 6 ∧
    (636 - 150 * Real.sqrt 6 : ℝ) < 600 * (50 / 100) ∧
    (268.5 : ℝ) < 636 - 150 * Real.sqrt 6 ∧
    (636 - 150 * Real.sqrt 6 : ℝ) < 268.6 := by
  refine ⟨?_, footprint600, ?_, ?_, ?_⟩
  · intro a cov fr sd rr rs z ov ho r ha hcov hfr hsd hrr hcalc
    rw [calculateBuildability_ok _ _ _ _ _ (by simpa using ha.ne')] at hcalc
    injection hcalc with h2
    subst h2
    unfold calcRecord resolveRules
    dsimp only
    rw [hcov, hfr, hsd, hrr]
    simp only [Option.getD_some]
    refine ⟨?_, ?_⟩ <;> first | rfl | trivial
  · nlinarith [sqrt_six_lb]
  · nlinarith [sqrt_six_ub]
  · nlinarith [sqrt_six_lb]

/-- Witness for C4: the general envelope formula instantiated at the
spec's 600 m² example. -/
theorem c4_witness :
    (calcRecord ((⟨some 600⟩ : Parcel).areaSqm.getD 0) (pyZoneCode none) (pyZoneCategory none)
      (resolveRules (pyZoneCode none) (some rules600)) [] none).buildableEnvelope.maxFootprintSqm =
      min (((600 : ℚ) : ℝ) * (((50 : ℚ) : ℝ) / 100))
        (max 0 (Real.sqrt ((600 : ℚ) : ℝ) - 2 * ((1.5 : ℚ) : ℝ)) *
          max 0 (Real.sqrt ((600 : ℚ) : ℝ) - ((6 : ℚ) : ℝ) - ((6 : ℚ) : ℝ))) :=
  (c4_envelope.1 600 50 6 1.5 6 rules600 none [] none _ (by norm_num) rfl rfl rfl rfl
    (calculateBuildability_ok ⟨some 600⟩ none (some rules600) [] none (by decide))).2


/-! ## SCC planning aggregation (`src/app/services/scc_planning.py`)

The service issues HTTP queries against council ArcGIS endpoints.  The
embedding cuts at the transport seam: each definition takes the outcome
of the external request as an argument — `Except.error` for any
exception raised before `data.get(...)` runs (connection error, timeout,
non-2xx status via `raise_for_status`, JSON parse failure), `Except.ok
none` for a parsed body without the expected key, and `Except.ok (some
fs)` for a body carrying the feature list.  URL/parameter construction
is request plumbing and is not modelled. -/

/-- An external-query failure: whatever exception `_query_layer` /
`_identify_service` / `_query_da_layer` catches. -/
structure QueryErr where
  msg : Str
deriving DecidableEq

/-- `_query_layer` (scc_planning.py:161-169): the whole request is inside
`try/except Exception`, returning `[]` on any failure, and an `ok` body
yields `data.get("features", [])`. -/
def queryLayer {F : Type} (resp : Except QueryErr (Option (List F))) : List F :=
  match resp with
  | Except.error _ => []
  | Except.ok none => []
  | Except.ok (some fs) => fs

/-- Attributes of one zoning feature as read by `get_zone`
(`attrs.get` with `""` defaults: an absent key embeds as `[]`). -/
structure ZoneAttrs where
  label : Str
  heading : Str
  descript : Str
deriving DecidableEq

/-- The `{code, category, label, description}` record `get_zone` returns. -/
structure ZoneInfo where
  code : Str
  category : Str
  label : Str
  description : Str
deriving DecidableEq

/-- `get_zone` (scc_planning.py:228-247). -/
def getZone (resp : Except QueryErr (Option (List ZoneAttrs))) : Option ZoneInfo :=
  match queryLayer resp with
  | [] => none
  | f :: _ =>
    let heading := pyStrip f.heading
    some { code := f.label
           category := if heading = [] then str "Unknown Category" else heading
           label := f.label
           description := f.descript }

/-- Attributes of one height-overlay feature as read by
`get_height_restriction` (`HeightRestrictionMetres` may be null,
`ComplexComment` may be null). -/
structure HeightAttrs where
  heightRestrictionMetres : Option ℚ
  label : Str
  complexComment : Option Str
deriving DecidableEq

/-- The `{height_m, label, comment}` record. -/
structure HeightInfo where
  heightM : Option ℚ
  label : Str
  comment : Str
deriving DecidableEq

/-- `get_height_restriction` (scc_planning.py:250-268); `comment or ""`
embeds as `getD []`. -/
def getHeightRestriction (resp : Except QueryErr (Option (List HeightAttrs))) :
    Option HeightInfo :=
  match queryLayer resp with
  | [] => none
  | f :: _ =>
    some { heightM := f.heightRestrictionMetres
           label := f.label
           comment := f.complexComment.getD [] }

/-- `HEIGHT_LAYER = 50`. -/
def heightLayer : ℤ := 50

/-- The `OVERLAY_LAYERS` table (scc_planning.py:36-111):
category to list of `(layer_id, name)`, in source order. -/
def overlayLayersTable : List (Str × List (ℤ × Str)) :=
  [(str "Acid Sulfate Soils",
    [(0, str "Acid Sulfate Soils")]),
   (str "Airport Environs",
    [(2, str "Sunshine Coast Airport"),
     (3, str "Public Safety Area"),
     (9, str "Obstacle Limitation Surface (OLS)"),
     (12, str "Australian Noise Exposure Forecast (ANEF) Level"),
     (13, str "Caloundra Aerodrome")]),
   (str "Biodiversity, Waterways and Wetlands",
    [(24, str "Waterways"),
     (25, str "Declared Fish Habitat Area"),
     (26, str "Riparian Protection Area"),
     (27, str "Ramsar Wetlands"),
     (28, str "Wetlands"),
     (29, str "Waterbodies"),
     (30, str "Native Vegetation Area")]),
   (str "Bushfire Hazard",
    [(32, str "High Bushfire Hazard Area"),
     (33, str "High Bushfire Hazard Area Buffer"),
     (34, str "Medium Bushfire Hazard Area"),
     (35, str "Medium Bushfire Hazard Area Buffer")]),
   (str "Coastal Protection",
    [(37, str "Coastal Protection Area"),
     (38, str "Maritime Development Area")]),
   (str "Extractive Resources",
    [(40, str "Transport Route and Separation Area"),
     (41, str "Local Resource / Processing Area"),
     (43, str "State Key Resource Area")]),
   (str "Flood Hazard",
    [(46, str "Flooding and Inundation Area"),
     (47, str "Drainage Deficient Areas")]),
   (str "Height of Buildings and Structures",
    [(50, str "Maximum Height of Buildings and Structures")]),
   (str "Heritage and Character Areas",
    [(52, str "Local Heritage Place (Shipwreck)"),
     (53, str "State Heritage Place"),
     (54, str "Local Heritage Place"),
     (55, str "Land In Proximity to a Local Heritage Place"),
     (56, str "Character Building"),
     (57, str "Character Area")]),
   (str "Landslide Hazard",
    [(58, str "Landslide Hazard Area")]),
   (str "Steep Land",
    [(59, str "Steep Land (Slope)")]),
   (str "Regional Infrastructure",
    [(61, str "Gas Pipeline Corridor and Buffer"),
     (62, str "High Voltage Electricity Line (Distribution)"),
     (63, str "High Voltage Electricity Line (Transmission)"),
     (64, str "Water Supply Pipeline and Buffer"),
     (65, str "Wastewater Treatment Plant and Buffer"),
     (66, str "Railway Corridor and Buffer"),
     (67, str "Dedicated Transit Corridor and Buffer"),
     (68, str "Major Road Corridor and Buffer")]),
   (str "Scenic Amenity",
    [(69, str "Scenic Amenity"),
     (70, str "Scenic Route"),
     (71, str "Regional Inter-Urban Break")]),
   (str "Water Resource Catchments",
    [(73, str "Water Resource Catchment Area"),
     (74, str "Water Supply Storage")])]

/-- `ALL_OVERLAY_LAYER_IDS` (scc_planning.py:114-117): the append loop
over the table. -/
def allOverlayLayerIds : List ℤ :=
  overlayLayersTable.foldl
    (fun acc p => p.2.foldl (fun a q => a ++ [q.1]) acc) []

/-- `LAYER_INFO.get(lid, ("Unknown", "Unknown"))` (scc_planning.py:120-123):
the dict-build loop, later assignments overwriting earlier ones. -/
def layerInfo (lid : ℤ) : Str × Str :=
  (overlayLayersTable.foldl
    (fun acc p => p.2.foldl
      (fun a q => if q.1 = lid then some (p.1, q.2) else a) acc) none).getD
    (str "Unknown", str "Unknown")

/-- Attributes of one overlay feature as read by `get_overlays`:
`LABEL` (absent key embeds as `none`), `HeightRestrictionMetres`, and
`extraAttrs` standing for the attribute items that survive the source
filter dropping `OBJECTID`, `Shape`, `Shape.STArea()`, `Shape.STLength()`
and null values (scc_planning.py:311-315). -/
structure OverlayFeatAttrs where
  label : Option Str
  heightRestrictionMetres : Option ℚ
  extraAttrs : List (Str × Str)
deriving DecidableEq

/-- One raw entry of the `get_overlays` result (`height_m` is present only
for the height layer with a non-null value, embedded as `Option`). -/
structure RawOverlay where
  layerId : ℤ
  name : Str
  category : Str
  label : Str
  heightM : Option ℚ
  attributes : List (Str × Str)
deriving DecidableEq

/-- The entries `get_overlays` appends for one layer's feature list
(scc_planning.py:300-322; the `if features:` guard is redundant — an
empty list contributes no entries either way). -/
def layerEntries (lid : ℤ) (features : List OverlayFeatAttrs) : List RawOverlay :=
  features.map (fun f =>
    { layerId := lid
      name := (layerInfo lid).2
      category := (layerInfo lid).1
      label := f.label.getD (layerInfo lid).2
      heightM := if lid = heightLayer then f.heightRestrictionMetres else none
      attributes := f.extraAttrs })

/-- `get_overlays` (scc_planning.py:271-324): the batching (groups of 8
gathered concurrently) only schedules requests; entries are appended in
layer order, which the fold reproduces.  `resps` is the outcome of the
query for each layer id. -/
def getOverlays (resps : ℤ → Except QueryErr (Option (List OverlayFeatAttrs))) :
    List RawOverlay :=
  allOverlayLayerIds.foldl
    (fun acc lid => acc ++ layerEntries lid (queryLayer (resps lid))) []

/-- Build one grouped layer entry (scc_planning.py:349-360): keep
`layer_id`, `name`, `label`, the optional `height_m`, and the extra
attributes minus `DESCRIPT`/`HEADING`/`LABEL` (an empty dict is simply
absent in the source, which the empty list embeds). -/
def mkGroupedLayer (item : RawOverlay) : OverlayLayer :=
  { layerId := item.layerId
    name := item.name
    label := item.label
    heightM := item.heightM
    attributes := item.attributes.filter (fun p =>
      decide (p.1 ≠ str "DESCRIPT" ∧ p.1 ≠ str "HEADING" ∧ p.1 ≠ str "LABEL")) }

/-- Append a layer into its category's group, creating the group at the
end on first sight — Python dict insertion-order semantics
(scc_planning.py:343-361). -/
def addToGroup : List OverlayGroup → Str → OverlayLayer → List OverlayGroup
  | [], cat, l => [{ category := cat, layers := [l] }]
  | g :: gs, cat, l =>
    if g.category = cat then { g with layers := g.layers ++ [l] } :: gs
    else g :: addToGroup gs cat l

/-- One iteration of the `get_overlays_grouped` loop
(scc_planning.py:336-361); the state is the `seen_keys` set and the
groups so far.  The source key is the string `f"{layer_id}|{label}"`;
as `str(layer_id)` never contains `|`, that string is injective in the
`(layer_id, label)` pair, which is how the key embeds. -/
def groupStep (st : List (ℤ × Str) × List OverlayGroup) (item : RawOverlay) :
    List (ℤ × Str) × List OverlayGroup :=
  if (item.layerId, item.label) ∈ st.1 then st
  else ((item.layerId, item.label) :: st.1,
    addToGroup st.2 item.category (mkGroupedLayer item))

/-- The grouping loop of `get_overlays_grouped` over a raw overlay list. -/
def groupOverlays (raw : List RawOverlay) : List OverlayGroup :=
  (raw.foldl groupStep ([], [])).2

/-- `get_overlays_grouped` (scc_planning.py:327-363). -/
def getOverlaysGrouped (resps : ℤ → Except QueryErr (Option (List OverlayFeatAttrs))) :
    List OverlayGroup :=
  groupOverlays (getOverlays resps)

/-- Attributes of one identify result as read by `get_transport`. -/
structure TransportAttrs where
  heading : Str
  label : Str
  descript : Str
deriving DecidableEq

/-- One `{heading, label, description}` transport record. -/
structure TransportRec where
  heading : Str
  label : Str
  description : Str
deriving DecidableEq

/-- `_identify_service` (scc_planning.py:191-199): same catch-all shape
as `_query_layer`, over the `results` key of the identify response. -/
def identifyService (resp : Except QueryErr (Option (List TransportAttrs))) :
    List TransportAttrs :=
  queryLayer resp

/-- `get_transport` (scc_planning.py:366-387): dedup by the
`f"{heading}|{label}"` key, embedded as the pair. -/
def getTransport (resp : Except QueryErr (Option (List TransportAttrs))) :
    List TransportRec :=
  ((identifyService resp).foldl
    (fun st r =>
      if (r.heading, r.label) ∈ st.1 then st
      else ((r.heading, r.label) :: st.1,
        st.2 ++ [{ heading := r.heading, label := r.label, description := r.descript }]))
    (([] : List (Str × Str)), ([] : List TransportRec))).2



/-- Attributes of one parcel feature as read by `get_scc_parcel_info`
(string fields default to `""` on absent keys; `land_area` and
`Street_Number` / `property_no` may be absent or null, embedded as
`Option`; `house_no` with its `""` default is the inner fallback). -/
structure SccParcelAttrs where
  addressFormat : Str
  addressShort : Str
  lot : Str
  plannum : Str
  lotplan : Str
  landArea : Option ℚ
  areaUnitsDesc : Str
  streetName : Str
  streetNumber : Option Str
  houseNo : Str
  localityName : Str
  postcode : Str
  landtype : Str
  status : Str
  propertyNo : Option ℤ

/-- The parcel record `get_scc_parcel_info` returns. -/
structure SccParcelInfo where
  address : Str
  addressShort : Str
  lot : Str
  plan : Str
  lotplan : Str
  areaSqm : Option ℚ
  areaUnits : Str
  streetName : Str
  streetNumber : Str
  locality : Str
  postcode : Str
  landType : Str
  status : Str
  propertyNo : Option ℤ

/-- `float(attrs.get("land_area", 0)) if attrs.get("land_area") else None`
(scc_planning.py:426): the truthiness test maps a null or zero area to
`None`. -/
def truthyArea (a : Option ℚ) : Option ℚ :=
  match a with
  | none => none
  | some v => if v = 0 then none else some v

/-- `get_scc_parcel_info` (scc_planning.py:390-435): its own
`try/except` returns `None` on any request failure, an empty feature
list also gives `None`; `street_number` falls back from `Street_Number`
to `house_no` (the final `str()` is the identity on strings). -/
def getSccParcelInfo (resp : Except QueryErr (Option (List SccParcelAttrs))) :
    Option SccParcelInfo :=
  match resp with
  | Except.error _ => none
  | Except.ok body =>
    match body.getD [] with
    | [] => none
    | f :: _ =>
      some { address := f.addressFormat
             addressShort := f.addressShort
             lot := f.lot
             plan := f.plannum
             lotplan := f.lotplan
             areaSqm := truthyArea f.landArea
             areaUnits := f.areaUnitsDesc
             streetName := f.streetName
             streetNumber := f.streetNumber.getD f.houseNo
             locality := f.localityName
             postcode := f.postcode
             landType := f.landtype
             status := f.status
             propertyNo := f.propertyNo }

/-- The five per-category response outcomes feeding one
`get_full_site_data` call.  `asyncio.gather` runs the five category
tasks independently; each field is the outcome of that category's own
request(s), the overlay category being one response per layer id. -/
structure AggEnv where
  zoneResp : Except QueryErr (Option (List ZoneAttrs))
  overlayResps : ℤ → Except QueryErr (Option (List OverlayFeatAttrs))
  heightResp : Except QueryErr (Option (List HeightAttrs))
  transportResp : Except QueryErr (Option (List TransportAttrs))
  parcelResp : Except QueryErr (Option (List SccParcelAttrs))

/-- The assembled site snapshot `get_full_site_data` returns
(scc_planning.py:453-459). -/
structure SiteData where
  zone : Option ZoneInfo
  overlays : List OverlayGroup
  height : Option HeightInfo
  transport : List TransportRec
  sccParcel : Option SccParcelInfo

/-- `get_full_site_data` (scc_planning.py:438-459). -/
def getFullSiteData (env : AggEnv) : SiteData :=
  { zone := getZone env.zoneResp
    overlays := getOverlaysGrouped env.overlayResps
    height := getHeightRestriction env.heightResp
    transport := getTransport env.transportResp
    sccParcel := getSccParcelInfo env.parcelResp }

/-! ## DA history (`src/app/services/da_history.py`) -/

/-- Attributes of one DA feature, as listed in the `outFields` of
`_query_da_layer`.  `ram_id` may be absent/null; the two ArcGIS
millisecond timestamps embed as `Option ℤ`. -/
structure DAFeatAttrs where
  ramId : Option Str
  description : Str
  categoryDesc : Str
  decision : Str
  progress : Str
  assessmentLevel : Str
  dateRec : Option ℤ
  dateDecisionMade : Option ℤ
  landParcelRelationship : Str

/-- The outcome of one `_query_da_layer` request. -/
abbrev DAResp := Except QueryErr (Option (List DAFeatAttrs))

/-- `_query_da_layer` (da_history.py:82-90): identical catch-all shape
to `_query_layer`. -/
def queryDaLayer (resp : DAResp) : List DAFeatAttrs :=
  queryLayer resp

/-- `_format_date` (da_history.py:122-133): a falsy timestamp (absent,
null or 0) gives `None`; otherwise the millisecond timestamp is
rendered as a date string.  The embedding keeps the timestamp itself —
downstream code (`_is_in_progress`) only ever tests presence, and an
in-range timestamp never reaches the out-of-range except branch. -/
def formatDate (t : Option ℤ) : Option ℤ :=
  match t with
  | none => none
  | some v => if v = 0 then none else some v

/-- Python truthiness of the raw `ram_id` value. -/
def truthyId (o : Option Str) : Bool :=
  match o with
  | none => false
  | some s => decide (s ≠ [])

/-- `_process_da_features` (da_history.py:93-119): strip the text
fields, then keep a record only if `ram_id` is truthy or the stripped
description is nonempty. -/
def processDaFeatures (features : List DAFeatAttrs) : List DARecord :=
  (features.map (fun a =>
    { ramId := a.ramId
      description := pyStrip a.description
      category := pyStrip a.categoryDesc
      decision := pyStrip a.decision
      progress := pyStrip a.progress
      assessmentLevel := pyStrip a.assessmentLevel
      dateReceived := formatDate a.dateRec
      dateDecided := formatDate a.dateDecisionMade
      landParcelRelationship := pyStrip a.landParcelRelationship })).filter
    (fun da => truthyId da.ramId || pyTruthy da.description)

/-- `_is_in_progress` (da_history.py:204-221). -/
def isInProgress (da : DARecord) : Bool :=
  let progress := pyLower da.progress
  let decision := pyLower da.decision
  if da.dateDecided = none ∧ da.dateReceived ≠ none then true
  else if str "progress" <:+: progress ∨ str "current" <:+: progress ∨
      str "pending" <:+: progress then true
  else if decision = [] ∨ str "pending" <:+: decision ∨
      str "current" <:+: decision then true
  else false

/-- The truthy `ram_id` of a processed record, as collected into
`on_parcel_ids = set(da.get("ram_id") for da in on_parcel if
da.get("ram_id"))` (da_history.py:171); the set only ever answers
membership tests, so a list of the ids embeds it faithfully. -/
def truthyRamId (da : DARecord) : Option Str :=
  match da.ramId with
  | some s => if s = [] then none else some s
  | none => none

/-- The truthy on-parcel ids. -/
def onParcelIds (onParcel : List DARecord) : List Str :=
  onParcel.filterMap truthyRamId

/-- The nearby filter predicate (da_history.py:172): keep a candidate
unless its `ram_id` is in the on-parcel id set (a `None` id is never in
a set of truthy strings, so such records are kept). -/
def keepNearby (onParcel : List DARecord) (da : DARecord) : Bool :=
  match da.ramId with
  | none => true
  | some s => decide (s ∉ onParcelIds onParcel)

/-- Drop nearby candidates whose id already occurs on the parcel. -/
def dedupNearby (onParcel cand : List DARecord) : List DARecord :=
  cand.filter (keepNearby onParcel)

/-- Process one half of `get_da_history` (da_history.py:162-168): the
two DA layers' features processed together, then the two building
layers' features, concatenated. -/
def processedDas (rA rB rC rD : DAResp) : List DARecord :=
  processDaFeatures (queryDaLayer rA ++ queryDaLayer rB) ++
    processDaFeatures (queryDaLayer rC ++ queryDaLayer rD)

/-- The DA-history aggregate (record lists and counts).  The portal
link and the summary string are presentational formatting over
`lot_plan` and these counts and are not modelled. -/
structure DAHistory where
  onParcel : List DARecord
  nearby : List DARecord
  onParcelCount : ℕ
  nearbyCount : ℕ
  totalCount : ℕ
  onParcelInProgress : ℕ
  nearbyInProgress : ℕ
  totalInProgress : ℕ

/-- `get_da_history` (da_history.py:136-201).  The eight arguments are
the outcomes of the eight parallel `_query_da_layer` calls, in source
order: DA in-progress / DA decided / building in-progress / building
decided, first the four on-parcel queries, then the four nearby ones. -/
def getDaHistory (r1 r2 r3 r4 r5 r6 r7 r8 : DAResp) : DAHistory :=
  let onParcel := processedDas r1 r2 r3 r4
  let nearby := dedupNearby onParcel (processedDas r5 r6 r7 r8)
  let onParcelInProgress := (onParcel.filter isInProgress).length
  let nearbyInProgress := (nearby.filter isInProgress).length
  { onParcel := onParcel
    nearby := nearby
    onParcelCount := onParcel.length
    nearbyCount := nearby.length
    totalCount := onParcel.length + nearby.length
    onParcelInProgress := onParcelInProgress
    nearbyInProgress := nearbyInProgress
    totalInProgress := onParcelInProgress + nearbyInProgress }


/-- A failing layer query contributes no raw overlay entries. -/
lemma layerEntries_of_error
    {resps : ℤ → Except QueryErr (Option (List OverlayFeatAttrs))}
    (h : ∀ lid, ∃ q, resps lid = Except.error q) (lid : ℤ) :
    layerEntries lid (queryLayer (resps lid)) = [] := by
  obtain ⟨q, hq⟩ := h lid
  rw [hq]
  rfl

/-- If every layer contributes no entries, the overlay fold returns its
accumulator unchanged. -/
lemma foldl_entries_acc (resps : ℤ → Except QueryErr (Option (List OverlayFeatAttrs)))
    (h : ∀ lid, layerEntries lid (queryLayer (resps lid)) = []) :
    ∀ (ids : List ℤ) (acc : List RawOverlay),
      ids.foldl (fun a lid => a ++ layerEntries lid (queryLayer (resps lid))) acc = acc := by
  intro ids
  induction ids with
  | nil => intro acc; rfl
  | cons x xs ih =>
    intro acc
    rw [List.foldl_cons]
    rw [h x, List.append_nil]
    exact ih acc

/-- C5: every provider category of the site aggregation is fault-
isolated.  A category whose external query fails (any caught exception)
yields that category's default — `none` for zone, height and parcel,
`[]` for overlays and transport, and for a DA layer the same result as
an empty feature list — and each snapshot field depends only on its own
category's response, so the other categories are still populated
exactly as their own responses dictate.  (`get_full_site_data` and
`get_da_history` are total Lean functions, so no input makes the
aggregate itself fail.) -/
theorem c5_fault_isolation :
    (∀ env : AggEnv, ∀ q, env.zoneResp = Except.error q →
      (getFullSiteData env).zone = none) ∧
    (∀ env : AggEnv, (∀ lid, ∃ q, env.overlayResps lid = Except.error q) →
      (getFullSiteData env).overlays = []) ∧
    (∀ env : AggEnv, ∀ q, env.heightResp = Except.error q →
      (getFullSiteData env).height = none) ∧
    (∀ env : AggEnv, ∀ q, env.transportResp = Except.error q →
      (getFullSiteData env).transport = []) ∧
    (∀ env : AggEnv, ∀ q, env.parcelResp = Except.error q →
      (getFullSiteData env).sccParcel = none) ∧
    (∀ r2 r3 r4 r5 r6 r7 r8 : DAResp, ∀ q : QueryErr,
      getDaHistory (Except.error q) r2 r3 r4 r5 r6 r7 r8 =
        getDaHistory (Except.ok (some [])) r2 r3 r4 r5 r6 r7 r8) ∧
    (∀ e1 e2 : AggEnv, e1.zoneResp = e2.zoneResp →
      (getFullSiteData e1).zone = (getFullSiteData e2).zone) ∧
    (∀ e1 e2 : AggEnv, (∀ lid, e1.overlayResps lid = e2.overlayResps lid) →
      (getFullSiteData e1).overlays = (getFullSiteData e2).overlays) ∧
    (∀ e1 e2 : AggEnv, e1.heightResp = e2.heightResp →
      (getFullSiteData e1).height = (getFullSiteData e2).height) ∧
    (∀ e1 e2 : AggEnv, e1.transportResp = e2.transportResp →
      (getFullSiteData e1).transport = (getFullSiteData e2).transport) ∧
    (∀ e1 e2 : AggEnv, e1.parcelResp = e2.parcelResp →
      (getFullSiteData e1).sccParcel = (getFullSiteData e2).sccParcel) := by
  refine ⟨?_, ?_, ?_, ?_, ?_, ?_, ?_, ?_, ?_, ?_, ?_⟩
  · intro env q h
    simp only [getFullSiteData]
    rw [h]
    rfl
  · intro env h
    simp only [getFullSiteData]
    have h3 : getOverlays env.overlayResps = [] := by
      unfold getOverlays
      exact foldl_entries_acc env.overlayResps (fun lid => layerEntries_of_error h lid) _ _
    unfold getOverlaysGrouped
    rw [h3]
    rfl
  · intro env q h
    simp only [getFullSiteData]
    rw [h]
    rfl
  · intro env q h
    simp only [getFullSiteData]
    rw [h]
    rfl
  · intro env q h
    simp only [getFullSiteData]
    rw [h]
    rfl
  · intro r2 r3 r4 r5 r6 r7 r8 q
    have hq : processedDas (Except.error q) r2 r3 r4 =
        processedDas (Except.ok (some [])) r2 r3 r4 := rfl
    unfold getDaHistory
    rw [hq]
  · intro e1 e2 h
    simp only [getFullSiteData]
    rw [h]
  · intro e1 e2 h
    simp only [getFullSiteData]
    rw [funext h]
  · intro e1 e2 h
    simp only [getFullSiteData]
    rw [h]
  · intro e1 e2 h
    simp only [getFullSiteData]
    rw [h]
  · intro e1 e2 h
    simp only [getFullSiteData]
    rw [h]

/-- A concrete transport failure. -/
def qerrT : QueryErr := { msg := str "timeout" }

/-- A DA query that succeeded with no features. -/
def daRespEmpty : DAResp := Except.ok none

/-- An environment in which every category except height fails. -/
def envFail : AggEnv :=
  { zoneResp := Except.error qerrT
    overlayResps := fun _ => Except.error qerrT
    heightResp := Except.ok (some
      [{ heightRestrictionMetres := some 12, label := str "12m", complexComment := none }])
    transportResp := Except.error qerrT
    parcelResp := Except.error qerrT }

/-- `envFail` with the zone query succeeding (empty body). -/
def envOkZone : AggEnv := { envFail with zoneResp := Except.ok none }

/-- Witness for C5: in `envFail` the four failing categories default,
the height category is still populated, its value is unaffected by the
zone category's outcome, and a failing first DA layer behaves exactly
as an empty feature list. -/
theorem c5_witness :
    (getFullSiteData envFail).zone = none ∧
    (getFullSiteData envFail).overlays = [] ∧
    (getFullSiteData envFail).transport = [] ∧
    (getFullSiteData envFail).sccParcel = none ∧
    (getFullSiteData envFail).height =
      some { heightM := some 12, label := str "12m", comment := [] } ∧
    (getFullSiteData envFail).height = (getFullSiteData envOkZone).height ∧
    getDaHistory (Except.error qerrT) daRespEmpty daRespEmpty daRespEmpty daRespEmpty
        daRespEmpty daRespEmpty daRespEmpty =
      getDaHistory (Except.ok (some [])) daRespEmpty daRespEmpty daRespEmpty daRespEmpty
        daRespEmpty daRespEmpty daRespEmpty :=
  ⟨c5_fault_isolation.1 envFail qerrT rfl,
   c5_fault_isolation.2.1 envFail (fun _ => ⟨qerrT, rfl⟩),
   c5_fault_isolation.2.2.2.1 envFail qerrT rfl,
   c5_fault_isolation.2.2.2.2.1 envFail qerrT rfl,
   rfl,
   c5_fault_isolation.2.2.2.2.2.2.2.2.1 envFail envOkZone rfl,
   c5_fault_isolation.2.2.2.2.2.1 daRespEmpty daRespEmpty daRespEmpty daRespEmpty
     daRespEmpty daRespEmpty daRespEmpty qerrT⟩


/-- All layer entries of a grouped output, in display order. -/
def allGroupedLayers (gs : List OverlayGroup) : List OverlayLayer :=
  gs.foldr (fun g acc => g.layers ++ acc) []

lemma allGroupedLayers_cons (g : OverlayGroup) (gs : List OverlayGroup) :
    allGroupedLayers (g :: gs) = g.layers ++ allGroupedLayers gs := rfl

/-- Appending a layer into its category's group appends it, up to
permutation, to the flattened layer list. -/
lemma addToGroup_perm (cat : Str) (l : OverlayLayer) :
    ∀ gs : List OverlayGroup,
      (allGroupedLayers (addToGroup gs cat l)).Perm (l :: allGroupedLayers gs) := by
  intro gs
  induction gs with
  | nil => simp [addToGroup, allGroupedLayers]
  | cons g gs ih =>
    simp only [addToGroup]
    split_ifs with hc
    · rw [allGroupedLayers_cons, allGroupedLayers_cons]
      have hEq : (g.layers ++ [l]) ++ allGroupedLayers gs =
          g.layers ++ l :: allGroupedLayers gs := by
        simp
      show (((g.layers ++ [l]) ++ allGroupedLayers gs)).Perm
        (l :: (g.layers ++ allGroupedLayers gs))
      rw [hEq]
      exact List.perm_middle
    · rw [allGroupedLayers_cons, allGroupedLayers_cons]
      exact List.Perm.trans (List.Perm.append_left g.layers ih) List.perm_middle

/-- One `groupStep` preserves the dedup invariant: every placed key is
in the seen set, and placed keys are pairwise distinct. -/
lemma groupStep_preserves (st : List (ℤ × Str) × List OverlayGroup) (item : RawOverlay)
    (h1 : ∀ l ∈ allGroupedLayers st.2, (l.layerId, l.label) ∈ st.1)
    (h2 : (allGroupedLayers st.2).Pairwise
      (fun a b => (a.layerId, a.label) ≠ (b.layerId, b.label))) :
    (∀ l ∈ allGroupedLayers (groupStep st item).2,
      (l.layerId, l.label) ∈ (groupStep st item).1) ∧
    (allGroupedLayers (groupStep st item).2).Pairwise
      (fun a b => (a.layerId, a.label) ≠ (b.layerId, b.label)) := by
  unfold groupStep
  split_ifs with hk
  · exact ⟨h1, h2⟩
  · have hperm := addToGroup_perm item.category (mkGroupedLayer item) st.2
    dsimp only
    constructor
    · intro l hl
      rcases List.mem_cons.mp (hperm.mem_iff.mp hl) with hEq | hOld
      · have hkey : ((mkGroupedLayer item).layerId, (mkGroupedLayer item).label) =
            (item.layerId, item.label) := rfl
        rw [hEq, hkey]
        exact List.mem_cons_self _ _
      · exact List.mem_cons_of_mem _ (h1 l hOld)
    · have hSym : Symmetric
          (fun a b : OverlayLayer => (a.layerId, a.label) ≠ (b.layerId, b.label)) :=
        fun a b h e => h e.symm
      refine (List.Perm.pairwise_iff (fun h e => hSym h e) hperm).mpr ?_
      refine List.pairwise_cons.mpr ⟨?_, h2⟩
      intro b hb heq
      apply hk
      have hb2 : (b.layerId, b.label) ∈ st.1 := h1 b hb
      have hkey : ((mkGroupedLayer item).layerId, (mkGroupedLayer item).label) =
          (item.layerId, item.label) := rfl
      rw [hkey] at heq
      rw [heq]
      exact hb2

/-- The grouping fold keeps placed keys pairwise distinct. -/
lemma groupOverlays_fold_invariant :
    ∀ (raw : List RawOverlay) (st : List (ℤ × Str) × List OverlayGroup),
      (∀ l ∈ allGroupedLayers st.2, (l.layerId, l.label) ∈ st.1) →
      (allGroupedLayers st.2).Pairwise
        (fun a b => (a.layerId, a.label) ≠ (b.layerId, b.label)) →
      (allGroupedLayers (raw.foldl groupStep st).2).Pairwise
        (fun a b => (a.layerId, a.label) ≠ (b.layerId, b.label)) := by
  intro raw
  induction raw with
  | nil => intro st h1 h2; exact h2
  | cons item rest ih =>
    intro st h1 h2
    rw [List.foldl_cons]
    obtain ⟨h1s, h2s⟩ := groupStep_preserves st item h1 h2
    exact ih (groupStep st item) h1s h2s

/-- No two layer entries of a grouped output share a
`(layer id, label)` key. -/
lemma groupOverlays_key_distinct (raw : List RawOverlay) :
    (allGroupedLayers (groupOverlays raw)).Pairwise
      (fun a b => (a.layerId, a.label) ≠ (b.layerId, b.label)) := by
  unfold groupOverlays
  exact groupOverlays_fold_invariant raw ([], [])
    (fun l hl => absurd hl (List.not_mem_nil l)) List.Pairwise.nil

/-- A nonempty `ram_id` occurring on the parcel never survives the
nearby filter. -/
lemma da_nearby_disjoint (r1 r2 r3 r4 r5 r6 r7 r8 : DAResp) (s : Str) (hs : s ≠ [])
    (hex : ∃ da ∈ (getDaHistory r1 r2 r3 r4 r5 r6 r7 r8).onParcel, da.ramId = some s) :
    ∀ da ∈ (getDaHistory r1 r2 r3 r4 r5 r6 r7 r8).nearby, da.ramId ≠ some s := by
  intro da hda hid
  obtain ⟨da0, hda0, hid0⟩ := hex
  have honp : (getDaHistory r1 r2 r3 r4 r5 r6 r7 r8).onParcel =
      processedDas r1 r2 r3 r4 := rfl
  have hnb : (getDaHistory r1 r2 r3 r4 r5 r6 r7 r8).nearby =
      dedupNearby (processedDas r1 r2 r3 r4) (processedDas r5 r6 r7 r8) := rfl
  rw [honp] at hda0
  rw [hnb] at hda
  have hmem : s ∈ onParcelIds (processedDas r1 r2 r3 r4) := by
    refine List.mem_filterMap.mpr ⟨da0, hda0, ?_⟩
    unfold truthyRamId
    rw [hid0]
    show (if s = [] then none else some s) = some s
    exact if_neg hs
  have hkeep := (List.mem_filter.mp hda).2
  unfold keepNearby at hkeep
  rw [hid] at hkeep
  have hkeep2 : decide (s ∉ onParcelIds (processedDas r1 r2 r3 r4)) = true := hkeep
  exact absurd hmem (of_decide_eq_true hkeep2)

/-- C9: within one aggregation, results are deduplicated by their
stable key.  The grouped overlay output never contains two layer
entries with the same `(layer id, label)` pair — over any raw overlay
list, hence over any layer responses — and a nonempty application case
id (`ram_id`) that appears on an on-parcel record never also appears on
a nearby record.  (A record with a null or empty `ram_id` carries no
case id; the source's `on_parcel_ids` set collects only truthy ids.) -/
theorem c9_dedup_invariants :
    (∀ raw : List RawOverlay,
      (allGroupedLayers (groupOverlays raw)).Pairwise
        (fun a b => (a.layerId, a.label) ≠ (b.layerId, b.label))) ∧
    (∀ resps : ℤ → Except QueryErr (Option (List OverlayFeatAttrs)),
      (allGroupedLayers (getOverlaysGrouped resps)).Pairwise
        (fun a b => (a.layerId, a.label) ≠ (b.layerId, b.label))) ∧
    (∀ r1 r2 r3 r4 r5 r6 r7 r8 : DAResp, ∀ s : Str, s ≠ [] →
      (∃ da ∈ (getDaHistory r1 r2 r3 r4 r5 r6 r7 r8).onParcel, da.ramId = some s) →
      ∀ da ∈ (getDaHistory r1 r2 r3 r4 r5 r6 r7 r8).nearby, da.ramId ≠ some s) :=
  ⟨groupOverlays_key_distinct,
   fun resps => groupOverlays_key_distinct (getOverlays resps),
   da_nearby_disjoint⟩

/-- A raw flood overlay entry. -/
def rawOverlayA : RawOverlay :=
  { layerId := 46
    name := str "Flooding and Inundation Area"
    category := str "Flood Hazard"
    label := str "Flooding and Inundation Area"
    heightM := none
    attributes := [] }

/-- A raw drainage overlay entry. -/
def rawOverlayB : RawOverlay :=
  { layerId := 47
    name := str "Drainage Deficient Areas"
    category := str "Flood Hazard"
    label := str "Drainage Deficient Areas"
    heightM := none
    attributes := [] }

/-- A DA feature with case id `DA201`. -/
def daFeatX : DAFeatAttrs :=
  { ramId := some (str "DA201")
    description := str "Dwelling house"
    categoryDesc := []
    decision := []
    progress := []
    assessmentLevel := []
    dateRec := none
    dateDecisionMade := none
    landParcelRelationship := [] }

/-- `daFeatX` after `_process_da_features`. -/
def daRecX : DARecord :=
  { ramId := some (str "DA201")
    description := str "Dwelling house"
    category := []
    decision := []
    progress := []
    assessmentLevel := []
    dateReceived := none
    dateDecided := none
    landParcelRelationship := [] }

/-- A DA query returning the one feature `daFeatX`. -/
def daRespX : DAResp := Except.ok (some [daFeatX])

/-- Witness for C9: duplicated raw flood entries group without a
repeated key, and a `DA201` case id both on the parcel and nearby is
absent from every nearby record. -/
theorem c9_witness :
    (allGroupedLayers (groupOverlays [rawOverlayA, rawOverlayA, rawOverlayB])).Pairwise
      (fun a b => (a.layerId, a.label) ≠ (b.layerId, b.label)) ∧
    ((getDaHistory daRespX daRespEmpty daRespEmpty daRespEmpty
        daRespX daRespEmpty daRespEmpty daRespEmpty).nearby.all
      (fun da => decide (da.ramId ≠ some (str "DA201")))) = true := by
  refine ⟨c9_dedup_invariants.1 [rawOverlayA, rawOverlayA, rawOverlayB], ?_⟩
  rw [List.all_eq_true]
  intro da hda
  exact decide_eq_true
    (c9_dedup_invariants.2.2 daRespX daRespEmpty daRespEmpty daRespEmpty
      daRespX daRespEmpty daRespEmpty daRespEmpty
      (str "DA201") (by decide) ⟨daRecX, by decide, rfl⟩ da hda)

end Urbix